import Mathlib

/-!
# The CNI network implementation of virtcontainers (`cni.go`)

A shallow embedding of `addVirtInterfaces`, `deleteVirtInterfaces`, `add` and
`remove` of `vendor/github.com/containers/virtcontainers/cni.go`.

Everything `cni.go` calls but does not define (the CNI plugin client, the
endpoint factory, the common setup and teardown, the namespace deletion) is a
field of `Env`: a function of an external state `σ` that returns the call's
result and the next external state.  The functions of `cni.go` thread a `World`
through those calls; besides the external state it holds the trace of every
external call made so far, with what the call returned, and the log lines.

Go values are modelled as values: the entries of `Endpoints` are distinct
endpoints (no two entries alias one `*VirtualEndpoint`).
-/

namespace virtcontainers

/-- A Go `error` result: `none` is `nil`, `some msg` is a non-nil error. -/
abbrev GoError := Option String

/-- Modelled from the spec: `types.Result`, declared outside `cni.go`, is the
data a plugin returns for one attached interface; it is opaque to `cni.go`,
which only stores it on the endpoint and logs it. -/
structure Result where
  payload : String
  deriving DecidableEq

/-- Modelled from the spec: the type of `NetPair.VirtIface` is declared outside
`cni.go`; it holds the interface name `cni.go` reads. -/
structure NetworkInterface where
  Name : String
  deriving DecidableEq

/-- Modelled from the spec: the type of `NetPair` is declared outside `cni.go`;
it holds the identifier and the guest-side interface `cni.go` reads. -/
structure NetworkInterfacePair where
  ID : String
  VirtIface : NetworkInterface
  deriving DecidableEq

/-- Modelled from the spec: `VirtualEndpoint` is declared outside `cni.go`; it
is the endpoint variant the type assertion `endpoint.(*VirtualEndpoint)`
accepts, with the interface pair and the properties a plugin call fills in. -/
structure VirtualEndpoint where
  NetPair : NetworkInterfacePair
  Properties : Result
  deriving DecidableEq

/-- Modelled from the spec: `SetProperties` is a method of `VirtualEndpoint`
declared outside `cni.go`; it stores the plugin result on the endpoint,
overwriting any prior properties. -/
def VirtualEndpoint.SetProperties (endpoint : VirtualEndpoint) (properties : Result) :
    VirtualEndpoint :=
  { endpoint with Properties := properties }

/-- Modelled from the spec: the interface `Endpoint` is declared outside
`cni.go`; a value is a `*VirtualEndpoint` or any other implementation, for which
the type assertion gives `ok = false`. -/
inductive Endpoint where
  | virt (endpoint : VirtualEndpoint)
  | other (kind : String)
  deriving DecidableEq

/-- Modelled from the spec: `NetworkNamespace` is declared outside `cni.go`;
its three fields are those of the literal `add` builds. -/
structure NetworkNamespace where
  NetNsPath : String
  NetNsCreated : Bool
  Endpoints : List Endpoint
  deriving DecidableEq

/-- The Go zero value `NetworkNamespace{}`. -/
def NetworkNamespace.zero : NetworkNamespace :=
  { NetNsPath := "", NetNsCreated := false, Endpoints := [] }

/-- Modelled from the spec: `Pod` is declared outside `cni.go`, which only
hands the pod on to the common setup. -/
structure Pod where
  id : String
  deriving DecidableEq

/-- Modelled from the spec: `NetworkConfig` is declared outside `cni.go`, which
reads its `NumInterfaces`. -/
structure NetworkConfig where
  NumInterfaces : Int
  deriving DecidableEq

/-- What `AddNetwork` returns: `(*types.Result, error)`. -/
inductive AddNetworkReturn where
  | ok (result : Result)
  | error (err : String)
  deriving DecidableEq

/-- What `createNetworkEndpoints` returns: `([]Endpoint, error)`. -/
inductive EndpointsReturn where
  | ok (endpoints : List Endpoint)
  | error (err : String)
  deriving DecidableEq

/-- One call that `cni.go` makes to code outside it, with the arguments and
what the call returned. -/
inductive Call where
  | NewNetworkPlugin (ret : GoError)
  | AddNetwork (podID netns ifName : String) (ret : AddNetworkReturn)
  | RemoveNetwork (podID netns ifName : String) (ret : GoError)
  | createNetworkEndpoints (numInterfaces : Int) (ret : EndpointsReturn)
  | addNetworkCommon (pod : Pod) (networkNS : NetworkNamespace)
      (after : NetworkNamespace) (ret : GoError)
  | removeNetworkCommon (networkNS : NetworkNamespace) (ret : GoError)
  | deleteNetNS (netNSPath : String) (force : Bool) (ret : GoError)
  deriving DecidableEq

/-- The code outside `cni.go`, over an external state `σ`.  Each function gets
the external state and the call's arguments and gives the call's result and the
next external state.  `addNetworkCommon` receives `*NetworkNamespace`, so it
also gives the record as it leaves it. -/
structure Env (σ : Type) where
  NewNetworkPlugin : σ → GoError × σ
  AddNetwork : σ → String → String → String → AddNetworkReturn × σ
  RemoveNetwork : σ → String → String → String → GoError × σ
  createNetworkEndpoints : σ → Int → EndpointsReturn × σ
  addNetworkCommon : σ → Pod → NetworkNamespace → (NetworkNamespace × GoError) × σ
  removeNetworkCommon : σ → NetworkNamespace → GoError × σ
  deleteNetNS : σ → String → Bool → GoError × σ

/-- The state threaded through `cni.go`: the external state, the external calls
made so far (oldest first) and the `AddNetwork results` log lines. -/
structure World (σ : Type) where
  ext : σ
  trace : List Call
  log : List Result

variable {σ : Type}

/-- The world after an external call `c` that left the external state `s`. -/
def World.call (w : World σ) (s : σ) (c : Call) : World σ :=
  { w with ext := s, trace := w.trace ++ [c] }

/-- The world after `n.Logger().Infof("AddNetwork results %v", *result)`. -/
def World.logInfo (w : World σ) (result : Result) : World σ :=
  { w with log := w.log ++ [result] }

/-- The loop of `addVirtInterfaces`, `for idx, endpoint := range
networkNS.Endpoints`, over the indices still to visit: the element is read at
its index when the iteration starts, and a successful attach writes the updated
endpoint back at the same index. -/
def addVirtInterfacesLoop (env : Env σ) (netNsPath : String) :
    List Nat → World σ → List Endpoint → World σ × List Endpoint × GoError
  | [], w, endpoints => (w, endpoints, none)
  | idx :: rest, w, endpoints =>
    match endpoints[idx]? with
    | some (.virt virtualEndpoint) =>
      let r := env.AddNetwork w.ext virtualEndpoint.NetPair.ID netNsPath
        virtualEndpoint.NetPair.VirtIface.Name
      let w1 := w.call r.2 (.AddNetwork virtualEndpoint.NetPair.ID netNsPath
        virtualEndpoint.NetPair.VirtIface.Name r.1)
      match r.1 with
      | .error err => (w1, endpoints, some err)
      | .ok result =>
        addVirtInterfacesLoop env netNsPath rest (w1.logInfo result)
          (endpoints.set idx (.virt (virtualEndpoint.SetProperties result)))
    | _ => addVirtInterfacesLoop env netNsPath rest w endpoints

/-- The function `addVirtInterfaces(networkNS *NetworkNamespace) error`: the
record is passed by pointer, so the result carries the record as left. -/
def addVirtInterfaces (env : Env σ) (w : World σ) (networkNS : NetworkNamespace) :
    World σ × NetworkNamespace × GoError :=
  let p := env.NewNetworkPlugin w.ext
  let w1 := w.call p.2 (.NewNetworkPlugin p.1)
  match p.1 with
  | some err => (w1, networkNS, some err)
  | none =>
    let r := addVirtInterfacesLoop env networkNS.NetNsPath
      (List.range networkNS.Endpoints.length) w1 networkNS.Endpoints
    (r.1, { networkNS with Endpoints := r.2.1 }, r.2.2)

/-- The loop of `deleteVirtInterfaces`, `for _, endpoint := range
networkNS.Endpoints`. -/
def deleteVirtInterfacesLoop (env : Env σ) (netNsPath : String) :
    List Endpoint → World σ → World σ × GoError
  | [], w => (w, none)
  | .virt virtualEndpoint :: rest, w =>
    let r := env.RemoveNetwork w.ext virtualEndpoint.NetPair.ID netNsPath
      virtualEndpoint.NetPair.VirtIface.Name
    let w1 := w.call r.2 (.RemoveNetwork virtualEndpoint.NetPair.ID netNsPath
      virtualEndpoint.NetPair.VirtIface.Name r.1)
    match r.1 with
    | some err => (w1, some err)
    | none => deleteVirtInterfacesLoop env netNsPath rest w1
  | .other _ :: rest, w => deleteVirtInterfacesLoop env netNsPath rest w

/-- The function `deleteVirtInterfaces(networkNS NetworkNamespace) error`. -/
def deleteVirtInterfaces (env : Env σ) (w : World σ) (networkNS : NetworkNamespace) :
    World σ × GoError :=
  let p := env.NewNetworkPlugin w.ext
  let w1 := w.call p.2 (.NewNetworkPlugin p.1)
  match p.1 with
  | some err => (w1, some err)
  | none => deleteVirtInterfacesLoop env networkNS.NetNsPath networkNS.Endpoints w1

/-- The function `add(pod, config, netNsPath, netNsCreated)
(NetworkNamespace, error)`. -/
def add (env : Env σ) (w : World σ) (pod : Pod) (config : NetworkConfig)
    (netNsPath : String) (netNsCreated : Bool) : World σ × NetworkNamespace × GoError :=
  let c := env.createNetworkEndpoints w.ext config.NumInterfaces
  let w1 := w.call c.2 (.createNetworkEndpoints config.NumInterfaces c.1)
  match c.1 with
  | .error err => (w1, NetworkNamespace.zero, some err)
  | .ok endpoints =>
    let networkNS : NetworkNamespace :=
      { NetNsPath := netNsPath, NetNsCreated := netNsCreated, Endpoints := endpoints }
    let a := addVirtInterfaces env w1 networkNS
    match a.2.2 with
    | some err => (a.1, NetworkNamespace.zero, some err)
    | none =>
      let s := env.addNetworkCommon a.1.ext pod a.2.1
      let w2 := a.1.call s.2 (.addNetworkCommon pod a.2.1 s.1.1 s.1.2)
      match s.1.2 with
      | some err => (w2, NetworkNamespace.zero, some err)
      | none => (w2, s.1.1, none)

/-- The function `remove(pod, networkNS) error`. -/
def remove (env : Env σ) (w : World σ) (_pod : Pod) (networkNS : NetworkNamespace) :
    World σ × GoError :=
  let t := env.removeNetworkCommon w.ext networkNS
  let w1 := w.call t.2 (.removeNetworkCommon networkNS t.1)
  match t.1 with
  | some err => (w1, some err)
  | none =>
    let d := deleteVirtInterfaces env w1 networkNS
    match d.2 with
    | some err => (d.1, some err)
    | none =>
      let x := env.deleteNetNS d.1.ext networkNS.NetNsPath true
      (d.1.call x.2 (.deleteNetNS networkNS.NetNsPath true x.1), x.1)

/-! ## Vocabulary for the statements -/

/-- The plugin-eligible endpoints (the `*VirtualEndpoint` entries) of an
endpoint sequence, in order. -/
def eligible : List Endpoint → List VirtualEndpoint
  | [] => []
  | .virt endpoint :: rest => endpoint :: eligible rest
  | .other _ :: rest => eligible rest

/-- The endpoint is not a `*VirtualEndpoint`. -/
def Endpoint.isOther : Endpoint → Bool
  | .virt _ => false
  | .other _ => true

/-- The calls made between the world `w` and a later world `w2`. -/
def newCalls (w w2 : World σ) : List Call :=
  w2.trace.drop w.trace.length

/-- The attach call for an endpoint in the namespace `netNsPath` that returned
the result `r`. -/
def attachOk (netNsPath : String) (endpoint : VirtualEndpoint) (r : Result) : Call :=
  .AddNetwork endpoint.NetPair.ID netNsPath endpoint.NetPair.VirtIface.Name (.ok r)

/-- The attach call for an endpoint in the namespace `netNsPath` that failed
with `err`. -/
def attachFail (netNsPath : String) (endpoint : VirtualEndpoint) (err : String) : Call :=
  .AddNetwork endpoint.NetPair.ID netNsPath endpoint.NetPair.VirtIface.Name (.error err)

/-- The detach call for an endpoint in the namespace `netNsPath` that returned
`ret`. -/
def detachCall (netNsPath : String) (ret : GoError) (endpoint : VirtualEndpoint) : Call :=
  .RemoveNetwork endpoint.NetPair.ID netNsPath endpoint.NetPair.VirtIface.Name ret

/-- The three arguments `(NetPair.ID, NetNsPath, NetPair.VirtIface.Name)` of a
plugin attach or detach call; `none` for any other call. -/
def Call.pluginArgs : Call → Option (String × String × String)
  | .AddNetwork podID netns ifName _ => some (podID, netns, ifName)
  | .RemoveNetwork podID netns ifName _ => some (podID, netns, ifName)
  | _ => none

/-- The three-tuple the plugin is called with for an endpoint of the namespace
`netNsPath`. -/
def pluginTuple (netNsPath : String) (endpoint : VirtualEndpoint) :
    String × String × String :=
  (endpoint.NetPair.ID, netNsPath, endpoint.NetPair.VirtIface.Name)

/-- The call is an `AddNetwork` call. -/
def Call.isAttach : Call → Bool
  | .AddNetwork _ _ _ _ => true
  | _ => false

/-- The call is an `AddNetwork` call that returned an error. -/
def Call.isFailedAttach : Call → Bool
  | .AddNetwork _ _ _ (.error _) => true
  | _ => false

/-- The call is a `RemoveNetwork` call. -/
def Call.isDetach : Call → Bool
  | .RemoveNetwork _ _ _ _ => true
  | _ => false

/-- The call is a `NewNetworkPlugin` call. -/
def Call.isNewPlugin : Call → Bool
  | .NewNetworkPlugin _ => true
  | _ => false

/-- The call is a `removeNetworkCommon` call. -/
def Call.isCommonTeardown : Call → Bool
  | .removeNetworkCommon _ _ => true
  | _ => false

/-- The call is an `addNetworkCommon` call. -/
def Call.isCommonSetup : Call → Bool
  | .addNetworkCommon _ _ _ _ => true
  | _ => false

/-- The call is a `deleteNetNS` call. -/
def Call.isDeleteNetNS : Call → Bool
  | .deleteNetNS _ _ _ => true
  | _ => false

/-- The world `remove` is in after a common teardown that returned nil. -/
def afterTeardown (env : Env σ) (w : World σ) (networkNS : NetworkNamespace) : World σ :=
  w.call (env.removeNetworkCommon w.ext networkNS).2 (.removeNetworkCommon networkNS none)

/-- The world `add` is in after `createNetworkEndpoints` returned `endpoints`. -/
def afterCreate (env : Env σ) (w : World σ) (config : NetworkConfig)
    (endpoints : List Endpoint) : World σ :=
  w.call (env.createNetworkEndpoints w.ext config.NumInterfaces).2
    (.createNetworkEndpoints config.NumInterfaces (.ok endpoints))

/-- The record `add` assembles from its arguments and the created endpoints. -/
def assembled (netNsPath : String) (netNsCreated : Bool) (endpoints : List Endpoint) :
    NetworkNamespace :=
  { NetNsPath := netNsPath, NetNsCreated := netNsCreated, Endpoints := endpoints }

/-- The attach sequence as `add` runs it once `createNetworkEndpoints` returned
`endpoints`: the world it leaves, the record as left and its error. -/
def attachOf (env : Env σ) (w : World σ) (config : NetworkConfig) (netNsPath : String)
    (netNsCreated : Bool) (endpoints : List Endpoint) : World σ × NetworkNamespace × GoError :=
  addVirtInterfaces env (afterCreate env w config endpoints)
    (assembled netNsPath netNsCreated endpoints)

/-- The common setup as `add` calls it after that attach sequence: the record as
the setup leaves it with the setup's error, and the next external state. -/
def setupOf (env : Env σ) (w : World σ) (pod : Pod) (config : NetworkConfig)
    (netNsPath : String) (netNsCreated : Bool) (endpoints : List Endpoint) :
    (NetworkNamespace × GoError) × σ :=
  env.addNetworkCommon (attachOf env w config netNsPath netNsCreated endpoints).1.ext pod
    (attachOf env w config netNsPath netNsCreated endpoints).2.1

/-! ## The attach loop as a recursion over the endpoints -/

/-- The attach loop read as a recursion over the endpoints still to visit: the
world, the endpoints as left (updated up to a failure, untouched after it) and
the error. -/
def attachAll (env : Env σ) (netNsPath : String) :
    List Endpoint → World σ → World σ × List Endpoint × GoError
  | [], w => (w, [], none)
  | .other kind :: rest, w =>
    ((attachAll env netNsPath rest w).1, .other kind :: (attachAll env netNsPath rest w).2.1,
      (attachAll env netNsPath rest w).2.2)
  | .virt endpoint :: rest, w =>
    match (env.AddNetwork w.ext endpoint.NetPair.ID netNsPath
        endpoint.NetPair.VirtIface.Name).1 with
    | .error err =>
      (w.call (env.AddNetwork w.ext endpoint.NetPair.ID netNsPath
          endpoint.NetPair.VirtIface.Name).2
        (.AddNetwork endpoint.NetPair.ID netNsPath endpoint.NetPair.VirtIface.Name
          (.error err)), .virt endpoint :: rest, some err)
    | .ok result =>
      ((attachAll env netNsPath rest
          ((w.call (env.AddNetwork w.ext endpoint.NetPair.ID netNsPath
              endpoint.NetPair.VirtIface.Name).2
            (.AddNetwork endpoint.NetPair.ID netNsPath endpoint.NetPair.VirtIface.Name
              (.ok result))).logInfo result)).1,
        .virt (endpoint.SetProperties result) ::
          (attachAll env netNsPath rest
            ((w.call (env.AddNetwork w.ext endpoint.NetPair.ID netNsPath
                endpoint.NetPair.VirtIface.Name).2
              (.AddNetwork endpoint.NetPair.ID netNsPath endpoint.NetPair.VirtIface.Name
                (.ok result))).logInfo result)).2.1,
        (attachAll env netNsPath rest
          ((w.call (env.AddNetwork w.ext endpoint.NetPair.ID netNsPath
              endpoint.NetPair.VirtIface.Name).2
            (.AddNetwork endpoint.NetPair.ID netNsPath endpoint.NetPair.VirtIface.Name
              (.ok result))).logInfo result)).2.2)

/-- The endpoints after the first results of `rs` are stored, in order, on the
eligible endpoints; endpoints past the last result are untouched. -/
def fill : List Endpoint → List Result → List Endpoint
  | [], _ => []
  | .other kind :: rest, rs => .other kind :: fill rest rs
  | .virt endpoint :: rest, [] => .virt endpoint :: rest
  | .virt endpoint :: rest, r :: rs => .virt (endpoint.SetProperties r) :: fill rest rs

/-! ## Concrete inputs -/

/-- A `VirtualEndpoint` with the given identifier and guest interface name and
no properties yet. -/
def demoEndpoint (id ifName : String) : VirtualEndpoint :=
  { NetPair := { ID := id, VirtIface := { Name := ifName } },
    Properties := { payload := "" } }

/-- An environment whose external state counts the external calls made so far.
The call made in state `failAt` fails, every other call succeeds: `AddNetwork`
returns a result whose payload is the endpoint identifier,
`createNetworkEndpoints` the first `numInterfaces` of three endpoints, and
`addNetworkCommon` leaves the record as it is. -/
def demoEnv (failAt : Nat) : Env Nat where
  NewNetworkPlugin s := (if s = failAt then some "ProviderUnavailable" else none, s + 1)
  AddNetwork s podID _ _ :=
    (if s = failAt then .error "AttachFailed" else .ok { payload := podID }, s + 1)
  RemoveNetwork s _ _ _ := (if s = failAt then some "DetachFailed" else none, s + 1)
  createNetworkEndpoints s numInterfaces :=
    (if s = failAt then .error "EndpointCreationFailed"
      else .ok ([Endpoint.virt (demoEndpoint "a" "eth0"), .virt (demoEndpoint "b" "eth1"),
        .virt (demoEndpoint "c" "eth2")].take numInterfaces.toNat), s + 1)
  addNetworkCommon s _ networkNS :=
    ((networkNS, if s = failAt then some "CommonSetupFailed" else none), s + 1)
  removeNetworkCommon s _ := (if s = failAt then some "CommonTeardownFailed" else none, s + 1)
  deleteNetNS s _ _ := (if s = failAt then some "NamespaceDeletionFailed" else none, s + 1)

/-- The world before any call. -/
def demoWorld : World Nat :=
  { ext := 0, trace := [], log := [] }

/-- A pod. -/
def demoPod : Pod :=
  { id := "pod" }

/-- A namespace the caller did not create (`NetNsCreated = false`) with three
eligible endpoints and one that is not. -/
def demoNS : NetworkNamespace :=
  { NetNsPath := "/var/run/netns/pod", NetNsCreated := false,
    Endpoints := [.virt (demoEndpoint "a" "eth0"), .other "physical",
      .virt (demoEndpoint "b" "eth1"), .virt (demoEndpoint "c" "eth2")] }

theorem addVirtInterfacesLoop_eq_attachAll (env : Env σ) (netNsPath : String) :
    ∀ (n s : Nat) (w : World σ) (endpoints : List Endpoint),
      s + n = endpoints.length →
      addVirtInterfacesLoop env netNsPath (List.range' s n) w endpoints =
        ((attachAll env netNsPath (endpoints.drop s) w).1,
          endpoints.take s ++ (attachAll env netNsPath (endpoints.drop s) w).2.1,
          (attachAll env netNsPath (endpoints.drop s) w).2.2) := by
  intro n
  induction n with
  | zero =>
    intro s w endpoints h
    have hs : s = endpoints.length := by omega
    subst hs
    simp [addVirtInterfacesLoop, attachAll]
  | succ n ih =>
    intro s w endpoints h
    have hlt : s < endpoints.length := by omega
    have hdrop : endpoints.drop s = endpoints[s] :: endpoints.drop (s + 1) :=
      List.drop_eq_getElem_cons hlt
    have hget : endpoints[s]? = some endpoints[s] := List.getElem?_eq_getElem hlt
    rw [List.range'_succ, addVirtInterfacesLoop, hget, hdrop]
    cases hx : endpoints[s] with
    | other kind =>
      simp only [attachAll]
      rw [ih (s + 1) w endpoints (by omega)]
      have : endpoints.take (s + 1) = endpoints.take s ++ [Endpoint.other kind] := by
        rw [List.take_succ, hget, hx]; rfl
      simp [this]
    | virt endpoint =>
      simp only [attachAll]
      cases hr : (env.AddNetwork w.ext endpoint.NetPair.ID netNsPath
          endpoint.NetPair.VirtIface.Name).1 with
      | error err =>
        simp only
        have : endpoints.take s ++ Endpoint.virt endpoint :: endpoints.drop (s + 1)
            = endpoints := by
          rw [← hx, ← hdrop, List.take_append_drop]
        rw [this]
      | ok result =>
        simp only
        rw [ih (s + 1) _ _ (by simp only [List.length_set]; omega)]
        have h1 : (endpoints.set s (Endpoint.virt (endpoint.SetProperties result))).drop (s + 1)
            = endpoints.drop (s + 1) := by
          rw [List.drop_set_of_lt _ _ (by omega)]
        have h2 : (endpoints.set s (Endpoint.virt (endpoint.SetProperties result))).take (s + 1)
            = endpoints.take s ++ [Endpoint.virt (endpoint.SetProperties result)] := by
          rw [List.take_succ, List.set_take, List.set_eq_of_length_le (by simp)]
          simp [hlt]
        rw [h1, h2]
        simp

theorem addVirtInterfaces_of_plugin_error (env : Env σ) (w : World σ)
    (networkNS : NetworkNamespace) (err : String)
    (hp : (env.NewNetworkPlugin w.ext).1 = some err) :
    addVirtInterfaces env w networkNS =
      (w.call (env.NewNetworkPlugin w.ext).2 (.NewNetworkPlugin (some err)),
        networkNS, some err) := by
  simp only [addVirtInterfaces, hp]

theorem addVirtInterfaces_of_plugin_ok (env : Env σ) (w : World σ)
    (networkNS : NetworkNamespace) (hp : (env.NewNetworkPlugin w.ext).1 = none) :
    addVirtInterfaces env w networkNS =
      ((attachAll env networkNS.NetNsPath networkNS.Endpoints
          (w.call (env.NewNetworkPlugin w.ext).2 (.NewNetworkPlugin none))).1,
        { networkNS with Endpoints :=
            (attachAll env networkNS.NetNsPath networkNS.Endpoints
              (w.call (env.NewNetworkPlugin w.ext).2 (.NewNetworkPlugin none))).2.1 },
        (attachAll env networkNS.NetNsPath networkNS.Endpoints
          (w.call (env.NewNetworkPlugin w.ext).2 (.NewNetworkPlugin none))).2.2) := by
  simp only [addVirtInterfaces, hp]
  rw [List.range_eq_range', addVirtInterfacesLoop_eq_attachAll env _ _ 0 _ _ (by simp)]
  simp

theorem attachAll_shape (env : Env σ) (netNsPath : String) :
    ∀ (l : List Endpoint) (w : World σ), ∃ rs : List Result,
      rs.length ≤ (eligible l).length ∧
      (attachAll env netNsPath l w).1.log = w.log ++ rs ∧
      (attachAll env netNsPath l w).2.1 = fill l rs ∧
      (((attachAll env netNsPath l w).2.2 = none ∧ rs.length = (eligible l).length ∧
          (attachAll env netNsPath l w).1.trace =
            w.trace ++ List.zipWith (attachOk netNsPath) (eligible l) rs) ∨
        (∃ e endpoint, (attachAll env netNsPath l w).2.2 = some e ∧
          (eligible l)[rs.length]? = some endpoint ∧
          (attachAll env netNsPath l w).1.trace =
            w.trace ++ List.zipWith (attachOk netNsPath) (eligible l) rs ++
              [attachFail netNsPath endpoint e])) := by
  intro l
  induction l with
  | nil =>
    intro w
    exact ⟨[], by simp [attachAll, eligible, fill]⟩
  | cons x rest ih =>
    intro w
    cases x with
    | other kind =>
      obtain ⟨rs, h1, h2, h3, h4⟩ := ih w
      refine ⟨rs, ?_, ?_, ?_, ?_⟩
      · simpa [eligible] using h1
      · simpa [attachAll] using h2
      · simp [attachAll, fill, h3]
      · simpa [attachAll, eligible] using h4
    | virt endpoint =>
      cases hr : (env.AddNetwork w.ext endpoint.NetPair.ID netNsPath
          endpoint.NetPair.VirtIface.Name).1 with
      | error err =>
        refine ⟨[], ?_, ?_, ?_, Or.inr ⟨err, endpoint, ?_, ?_, ?_⟩⟩
        · simp
        · simp [attachAll, hr, World.call]
        · simp [attachAll, hr, fill]
        · simp [attachAll, hr]
        · simp [eligible]
        · simp [attachAll, hr, World.call, attachFail]
      | ok result =>
        obtain ⟨rs, h1, h2, h3, h4⟩ := ih
          ((w.call (env.AddNetwork w.ext endpoint.NetPair.ID netNsPath
              endpoint.NetPair.VirtIface.Name).2
            (.AddNetwork endpoint.NetPair.ID netNsPath endpoint.NetPair.VirtIface.Name
              (.ok result))).logInfo result)
        refine ⟨result :: rs, ?_, ?_, ?_, ?_⟩
        · simpa [eligible] using h1
        · simp only [attachAll, hr]
          rw [h2]
          simp [World.call, World.logInfo]
        · simp only [attachAll, hr]
          rw [h3]
          simp [fill]
        · simp only [attachAll, hr]
          rcases h4 with ⟨ha, hb, hc⟩ | ⟨e, ve, ha, hb, hc⟩
          · refine Or.inl ⟨ha, by simp [eligible, hb], ?_⟩
            rw [hc]
            simp [World.call, World.logInfo, eligible, attachOk]
          · refine Or.inr ⟨e, ve, ha, by simpa [eligible] using hb, ?_⟩
            rw [hc]
            simp [World.call, World.logInfo, eligible, attachOk]

theorem fill_length : ∀ (l : List Endpoint) (rs : List Result), (fill l rs).length = l.length := by
  intro l
  induction l with
  | nil => intro rs; simp [fill]
  | cons x rest ih =>
    intro rs
    cases x with
    | other kind => simp [fill, ih]
    | virt endpoint =>
      cases rs with
      | nil => simp [fill]
      | cons r rs => simp [fill, ih]

theorem fill_getElem?_other : ∀ (l : List Endpoint) (rs : List Result) (i : Nat) (kind : String),
    l[i]? = some (.other kind) → (fill l rs)[i]? = some (.other kind) := by
  intro l
  induction l with
  | nil => intro rs i kind h; simp at h
  | cons x rest ih =>
    intro rs i kind h
    cases x with
    | other k =>
      cases i with
      | zero => simpa [fill] using h
      | succ i => simpa [fill] using ih rs i kind (by simpa using h)
    | virt endpoint =>
      cases rs with
      | nil => simpa [fill] using h
      | cons r rs =>
        cases i with
        | zero => simp at h
        | succ i => simpa [fill] using ih rs i kind (by simpa using h)

theorem fill_getElem?_virt : ∀ (l : List Endpoint) (rs : List Result) (i : Nat)
    (endpoint : VirtualEndpoint) (r : Result),
    l[i]? = some (.virt endpoint) → rs[(eligible (l.take i)).length]? = some r →
    (fill l rs)[i]? = some (.virt (endpoint.SetProperties r)) := by
  intro l
  induction l with
  | nil => intro rs i endpoint r h; simp at h
  | cons x rest ih =>
    intro rs i endpoint r h hr
    cases x with
    | other k =>
      cases i with
      | zero => simp at h
      | succ i =>
        simpa [fill] using ih rs i endpoint r (by simpa using h) (by simpa [eligible] using hr)
    | virt e0 =>
      cases rs with
      | nil => simp at hr
      | cons r0 rs =>
        cases i with
        | zero =>
          simp [eligible] at hr
          simp at h
          simp [fill, h, hr]
        | succ i =>
          simpa [fill] using ih rs i endpoint r (by simpa using h) (by simpa [eligible] using hr)

theorem fill_getElem?_past : ∀ (l : List Endpoint) (rs : List Result) (i : Nat),
    rs.length ≤ (eligible (l.take i)).length → (fill l rs)[i]? = l[i]? := by
  intro l
  induction l with
  | nil => intro rs i _; simp [fill]
  | cons x rest ih =>
    intro rs i h
    cases x with
    | other k =>
      cases i with
      | zero => simp [fill]
      | succ i => simpa [fill] using ih rs i (by simpa [eligible] using h)
    | virt e0 =>
      cases rs with
      | nil => simp [fill]
      | cons r0 rs =>
        cases i with
        | zero => simp [eligible] at h
        | succ i => simpa [fill] using ih rs i (by simpa [eligible] using h)

theorem eligible_append : ∀ (l1 l2 : List Endpoint), eligible (l1 ++ l2) = eligible l1 ++ eligible l2 := by
  intro l1
  induction l1 with
  | nil => intro l2; simp [eligible]
  | cons x rest ih =>
    intro l2
    cases x with
    | other k => simpa [eligible] using ih l2
    | virt e0 => simpa [eligible] using ih l2

theorem eligible_take_length_le (l : List Endpoint) (i : Nat) :
    (eligible (l.take i)).length ≤ (eligible l).length := by
  conv_rhs => rw [← List.take_append_drop i l]
  rw [eligible_append]
  simp

theorem eligible_take_lt (l : List Endpoint) (i : Nat) (endpoint : VirtualEndpoint)
    (h : l[i]? = some (.virt endpoint)) :
    (eligible l)[(eligible (l.take i)).length]? = some endpoint := by
  have hi : i < l.length := by
    by_contra hc
    rw [List.getElem?_eq_none (by omega)] at h
    simp at h
  have hsplit : l = l.take i ++ (.virt endpoint :: l.drop (i + 1)) := by
    have h1 : l.drop i = l[i] :: l.drop (i + 1) := List.drop_eq_getElem_cons hi
    have h2 : l[i] = .virt endpoint := by
      rw [List.getElem?_eq_getElem hi] at h
      exact Option.some.inj h
    rw [← h2, ← h1, List.take_append_drop]
  have key : eligible l =
      eligible (l.take i) ++ endpoint :: eligible (l.drop (i + 1)) := by
    conv_lhs => rw [hsplit]
    rw [eligible_append]
    simp [eligible]
  rw [key, List.getElem?_append_right (Nat.le_refl _)]
  simp

theorem call_trace (w : World σ) (s : σ) (c : Call) : (w.call s c).trace = w.trace ++ [c] := rfl

theorem call_log (w : World σ) (s : σ) (c : Call) : (w.call s c).log = w.log := rfl

theorem call_ext (w : World σ) (s : σ) (c : Call) : (w.call s c).ext = s := rfl

theorem newCalls_of_trace_eq (w w2 : World σ) (calls : List Call)
    (h : w2.trace = w.trace ++ calls) : newCalls w w2 = calls := by
  simp [newCalls, h]

theorem attachAll_append_of_ok (env : Env σ) (netNsPath : String) :
    ∀ (l1 l2 : List Endpoint) (w : World σ),
      (attachAll env netNsPath l1 w).2.2 = none →
      attachAll env netNsPath (l1 ++ l2) w =
        ((attachAll env netNsPath l2 (attachAll env netNsPath l1 w).1).1,
          (attachAll env netNsPath l1 w).2.1 ++
            (attachAll env netNsPath l2 (attachAll env netNsPath l1 w).1).2.1,
          (attachAll env netNsPath l2 (attachAll env netNsPath l1 w).1).2.2) := by
  intro l1
  induction l1 with
  | nil => intro l2 w _; simp [attachAll]
  | cons x rest ih =>
    intro l2 w h
    cases x with
    | other kind =>
      simp only [attachAll] at h
      rw [List.cons_append]
      simp only [attachAll]
      rw [ih l2 w h]
      simp
    | virt endpoint =>
      cases hr : (env.AddNetwork w.ext endpoint.NetPair.ID netNsPath
          endpoint.NetPair.VirtIface.Name).1 with
      | error err => simp [attachAll, hr] at h
      | ok result =>
        simp only [attachAll, hr] at h
        rw [List.cons_append]
        simp only [attachAll, hr]
        rw [ih l2 _ h]
        simp

theorem attachAll_filter (env : Env σ) (netNsPath : String) :
    ∀ (l : List Endpoint) (w : World σ),
      (attachAll env netNsPath (l.filter (fun x => !x.isOther)) w).1 =
          (attachAll env netNsPath l w).1 ∧
        (attachAll env netNsPath (l.filter (fun x => !x.isOther)) w).2.2 =
          (attachAll env netNsPath l w).2.2 := by
  intro l
  induction l with
  | nil => intro w; simp
  | cons x rest ih =>
    intro w
    cases x with
    | other kind => simpa [Endpoint.isOther, attachAll] using ih w
    | virt endpoint =>
      cases hr : (env.AddNetwork w.ext endpoint.NetPair.ID netNsPath
          endpoint.NetPair.VirtIface.Name).1 with
      | error err => simp [Endpoint.isOther, attachAll, hr]
      | ok result =>
        simp only [Endpoint.isOther, Bool.not_false, List.filter_cons_of_pos, attachAll, hr]
        exact ih _

theorem fill_virt_index (netNsPath : String) (l : List Endpoint) (rs : List Result)
    (hrs : rs.length = (eligible l).length) (i : Nat) (endpoint : VirtualEndpoint)
    (hi : l[i]? = some (.virt endpoint)) :
    ∃ r, rs[(eligible (l.take i)).length]? = some r ∧
      (List.zipWith (attachOk netNsPath) (eligible l) rs)[(eligible (l.take i)).length]? =
        some (attachOk netNsPath endpoint r) ∧
      (fill l rs)[i]? = some (.virt (endpoint.SetProperties r)) := by
  have hj := eligible_take_lt l i endpoint hi
  have hjlt : (eligible (l.take i)).length < rs.length := by
    rw [hrs]
    by_contra hc
    rw [List.getElem?_eq_none (by omega)] at hj
    simp at hj
  refine ⟨rs[(eligible (l.take i)).length], List.getElem?_eq_getElem hjlt, ?_, ?_⟩
  · rw [List.getElem?_zipWith, hj, List.getElem?_eq_getElem hjlt]
  · exact fill_getElem?_virt _ _ _ _ _ hi (List.getElem?_eq_getElem hjlt)

theorem attachAll_cons_virt_error (env : Env σ) (netNsPath : String) (endpoint : VirtualEndpoint)
    (rest : List Endpoint) (w : World σ) (e : String)
    (h : (env.AddNetwork w.ext endpoint.NetPair.ID netNsPath
      endpoint.NetPair.VirtIface.Name).1 = .error e) :
    attachAll env netNsPath (.virt endpoint :: rest) w =
      (w.call (env.AddNetwork w.ext endpoint.NetPair.ID netNsPath
          endpoint.NetPair.VirtIface.Name).2 (attachFail netNsPath endpoint e),
        .virt endpoint :: rest, some e) := by
  simp only [attachAll, h, attachFail]

theorem split_at_index (l : List Endpoint) (k : Nat) (x : Endpoint) (hk : l[k]? = some x) :
    k < l.length ∧ l = l.take k ++ x :: l.drop (k + 1) := by
  have hi : k < l.length := by
    by_contra hc
    rw [List.getElem?_eq_none (by omega)] at hk
    simp at hk
  refine ⟨hi, ?_⟩
  have h1 : l.drop k = l[k] :: l.drop (k + 1) := List.drop_eq_getElem_cons hi
  have h2 : l[k] = x := by
    rw [List.getElem?_eq_getElem hi] at hk
    exact Option.some.inj hk
  rw [← h2, ← h1, List.take_append_drop]

theorem deleteVirtInterfaces_of_plugin_error (env : Env σ) (w : World σ)
    (networkNS : NetworkNamespace) (err : String)
    (hp : (env.NewNetworkPlugin w.ext).1 = some err) :
    deleteVirtInterfaces env w networkNS =
      (w.call (env.NewNetworkPlugin w.ext).2 (.NewNetworkPlugin (some err)), some err) := by
  simp only [deleteVirtInterfaces, hp]

theorem deleteVirtInterfaces_of_plugin_ok (env : Env σ) (w : World σ)
    (networkNS : NetworkNamespace) (hp : (env.NewNetworkPlugin w.ext).1 = none) :
    deleteVirtInterfaces env w networkNS =
      deleteVirtInterfacesLoop env networkNS.NetNsPath networkNS.Endpoints
        (w.call (env.NewNetworkPlugin w.ext).2 (.NewNetworkPlugin none)) := by
  simp only [deleteVirtInterfaces, hp]

theorem deleteVirtInterfacesLoop_shape (env : Env σ) (netNsPath : String) :
    ∀ (l : List Endpoint) (w : World σ), ∃ m : Nat,
      m ≤ (eligible l).length ∧
      (deleteVirtInterfacesLoop env netNsPath l w).1.log = w.log ∧
      (((deleteVirtInterfacesLoop env netNsPath l w).2 = none ∧ m = (eligible l).length ∧
          (deleteVirtInterfacesLoop env netNsPath l w).1.trace =
            w.trace ++ (eligible l).map (detachCall netNsPath none)) ∨
        (∃ e endpoint, (deleteVirtInterfacesLoop env netNsPath l w).2 = some e ∧
          (eligible l)[m]? = some endpoint ∧
          (deleteVirtInterfacesLoop env netNsPath l w).1.trace =
            w.trace ++ (((eligible l).take m).map (detachCall netNsPath none) ++
              [detachCall netNsPath (some e) endpoint]))) := by
  intro l
  induction l with
  | nil =>
    intro w
    exact ⟨0, by simp [deleteVirtInterfacesLoop, eligible]⟩
  | cons x rest ih =>
    intro w
    cases x with
    | other kind =>
      obtain ⟨m, h1, h2, h3⟩ := ih w
      exact ⟨m, by simpa [eligible] using h1, by simpa [deleteVirtInterfacesLoop] using h2,
        by simpa [deleteVirtInterfacesLoop, eligible] using h3⟩
    | virt endpoint =>
      cases hr : (env.RemoveNetwork w.ext endpoint.NetPair.ID netNsPath
          endpoint.NetPair.VirtIface.Name).1 with
      | some err =>
        refine ⟨0, by simp, ?_, Or.inr ⟨err, endpoint, ?_, ?_, ?_⟩⟩
        · simp [deleteVirtInterfacesLoop, hr, call_log]
        · simp [deleteVirtInterfacesLoop, hr]
        · simp [eligible]
        · simp [deleteVirtInterfacesLoop, hr, call_trace, detachCall]
      | none =>
        obtain ⟨m, h1, h2, h3⟩ := ih
          (w.call (env.RemoveNetwork w.ext endpoint.NetPair.ID netNsPath
              endpoint.NetPair.VirtIface.Name).2
            (.RemoveNetwork endpoint.NetPair.ID netNsPath endpoint.NetPair.VirtIface.Name none))
        refine ⟨m + 1, by simpa [eligible] using h1, ?_, ?_⟩
        · simp only [deleteVirtInterfacesLoop, hr]
          rw [h2, call_log]
        · simp only [deleteVirtInterfacesLoop, hr]
          rcases h3 with ⟨ha, hb, hc⟩ | ⟨e, ve, ha, hb, hc⟩
          · refine Or.inl ⟨ha, by simp [eligible, hb], ?_⟩
            rw [hc, call_trace]
            simp [eligible, detachCall]
          · refine Or.inr ⟨e, ve, ha, by simpa [eligible] using hb, ?_⟩
            rw [hc, call_trace]
            simp [eligible, detachCall]

theorem deleteVirtInterfacesLoop_filter (env : Env σ) (netNsPath : String) :
    ∀ (l : List Endpoint) (w : World σ),
      deleteVirtInterfacesLoop env netNsPath (l.filter (fun x => !x.isOther)) w =
        deleteVirtInterfacesLoop env netNsPath l w := by
  intro l
  induction l with
  | nil => intro w; simp
  | cons x rest ih =>
    intro w
    cases x with
    | other kind => simpa [Endpoint.isOther, deleteVirtInterfacesLoop] using ih w
    | virt endpoint =>
      cases hr : (env.RemoveNetwork w.ext endpoint.NetPair.ID netNsPath
          endpoint.NetPair.VirtIface.Name).1 with
      | some err => simp [Endpoint.isOther, deleteVirtInterfacesLoop, hr]
      | none =>
        simp only [Endpoint.isOther, Bool.not_false, List.filter_cons_of_pos,
          deleteVirtInterfacesLoop, hr]
        exact ih _

theorem pluginArgs_attachOk (netNsPath : String) :
    ∀ (els : List VirtualEndpoint) (rs : List Result),
      (List.zipWith (attachOk netNsPath) els rs).filterMap Call.pluginArgs =
        ((els.map (pluginTuple netNsPath)).take rs.length) := by
  intro els
  induction els with
  | nil => intro rs; simp
  | cons x rest ih =>
    intro rs
    cases rs with
    | nil => simp
    | cons r rs =>
      simp [List.zipWith, attachOk, Call.pluginArgs, pluginTuple, ih rs]

theorem pluginArgs_detachCall (netNsPath : String) (ret : GoError) :
    ∀ (els : List VirtualEndpoint),
      (els.map (detachCall netNsPath ret)).filterMap Call.pluginArgs =
        els.map (pluginTuple netNsPath) := by
  intro els
  induction els with
  | nil => simp
  | cons x rest ih => simp [detachCall, Call.pluginArgs, pluginTuple, ih]

theorem take_succ_map_of_getElem? {α β : Type} (f : α → β) (l : List α) (m : Nat) (a : α)
    (h : l[m]? = some a) : (l.map f).take m ++ [f a] = (l.map f).take (m + 1) := by
  rw [List.take_succ, List.getElem?_map, h]
  simp

theorem virt_mem_of_mem_eligible : ∀ (l : List Endpoint) (endpoint : VirtualEndpoint),
    endpoint ∈ eligible l → Endpoint.virt endpoint ∈ l := by
  intro l
  induction l with
  | nil => intro endpoint h; simp [eligible] at h
  | cons x rest ih =>
    intro endpoint h
    cases x with
    | other kind =>
      exact List.mem_cons_of_mem _ (ih endpoint (by simpa [eligible] using h))
    | virt e0 =>
      simp only [eligible, List.mem_cons] at h
      rcases h with h | h
      · simp [h]
      · exact List.mem_cons_of_mem _ (ih endpoint h)

theorem mem_zipWith_attachOk (netNsPath : String) :
    ∀ (els : List VirtualEndpoint) (rs : List Result) (c : Call),
      c ∈ List.zipWith (attachOk netNsPath) els rs →
      ∃ endpoint ∈ els, ∃ r, c = attachOk netNsPath endpoint r := by
  intro els
  induction els with
  | nil => intro rs c h; simp at h
  | cons x rest ih =>
    intro rs c h
    cases rs with
    | nil => simp at h
    | cons r rs =>
      simp only [List.zipWith_cons_cons, List.mem_cons] at h
      rcases h with h | h
      · exact ⟨x, by simp, r, h⟩
      · obtain ⟨ve, hve, r2, hc⟩ := ih rs c h
        exact ⟨ve, List.mem_cons_of_mem _ hve, r2, hc⟩

theorem addVirtInterfaces_calls_shape (env : Env σ) (w : World σ)
    (networkNS : NetworkNamespace) :
    ∃ rest : List Call,
      (addVirtInterfaces env w networkNS).1.trace =
        w.trace ++ .NewNetworkPlugin (env.NewNetworkPlugin w.ext).1 :: rest ∧
      ((env.NewNetworkPlugin w.ext).1 ≠ none → rest = []) ∧
      ∀ c ∈ rest, ∃ endpoint ret, Endpoint.virt endpoint ∈ networkNS.Endpoints ∧
        c = .AddNetwork endpoint.NetPair.ID networkNS.NetNsPath
          endpoint.NetPair.VirtIface.Name ret := by
  cases hp : (env.NewNetworkPlugin w.ext).1 with
  | some err =>
    rw [addVirtInterfaces_of_plugin_error env w networkNS err hp]
    exact ⟨[], call_trace _ _ _, fun _ => rfl, by simp⟩
  | none =>
    rw [addVirtInterfaces_of_plugin_ok env w networkNS hp]
    obtain ⟨rs, -, -, -, hcase⟩ := attachAll_shape env networkNS.NetNsPath
      networkNS.Endpoints (w.call (env.NewNetworkPlugin w.ext).2 (.NewNetworkPlugin none))
    rcases hcase with ⟨-, -, htrace⟩ | ⟨e, ve, -, hve, htrace⟩
    · refine ⟨List.zipWith (attachOk networkNS.NetNsPath) (eligible networkNS.Endpoints) rs,
        (by rw [htrace, call_trace]; simp), by simp, ?_⟩
      intro c hc
      obtain ⟨x, hx, r, hcx⟩ := mem_zipWith_attachOk _ _ _ _ hc
      exact ⟨x, .ok r, virt_mem_of_mem_eligible _ _ hx, hcx⟩
    · refine ⟨List.zipWith (attachOk networkNS.NetNsPath) (eligible networkNS.Endpoints) rs ++
          [attachFail networkNS.NetNsPath ve e],
        (by rw [htrace, call_trace]; simp), by simp, ?_⟩
      intro c hc
      rw [List.mem_append] at hc
      rcases hc with hc | hc
      · obtain ⟨x, hx, r, hcx⟩ := mem_zipWith_attachOk _ _ _ _ hc
        exact ⟨x, .ok r, virt_mem_of_mem_eligible _ _ hx, hcx⟩
      · refine ⟨ve, .error e, virt_mem_of_mem_eligible _ _ (List.getElem?_mem hve), ?_⟩
        simpa [attachFail] using hc

theorem deleteVirtInterfaces_calls_shape (env : Env σ) (w : World σ)
    (networkNS : NetworkNamespace) :
    ∃ rest : List Call,
      (deleteVirtInterfaces env w networkNS).1.trace =
        w.trace ++ .NewNetworkPlugin (env.NewNetworkPlugin w.ext).1 :: rest ∧
      ((env.NewNetworkPlugin w.ext).1 ≠ none → rest = []) ∧
      ∀ c ∈ rest, ∃ endpoint ret, Endpoint.virt endpoint ∈ networkNS.Endpoints ∧
        c = .RemoveNetwork endpoint.NetPair.ID networkNS.NetNsPath
          endpoint.NetPair.VirtIface.Name ret := by
  cases hp : (env.NewNetworkPlugin w.ext).1 with
  | some err =>
    rw [deleteVirtInterfaces_of_plugin_error env w networkNS err hp]
    exact ⟨[], call_trace _ _ _, fun _ => rfl, by simp⟩
  | none =>
    rw [deleteVirtInterfaces_of_plugin_ok env w networkNS hp]
    obtain ⟨m, -, -, hcase⟩ := deleteVirtInterfacesLoop_shape env networkNS.NetNsPath
      networkNS.Endpoints (w.call (env.NewNetworkPlugin w.ext).2 (.NewNetworkPlugin none))
    rcases hcase with ⟨-, -, htrace⟩ | ⟨e, ve, -, hve, htrace⟩
    · refine ⟨(eligible networkNS.Endpoints).map (detachCall networkNS.NetNsPath none),
        (by rw [htrace, call_trace]; simp), by simp, ?_⟩
      intro c hc
      obtain ⟨x, hx, hcx⟩ := List.mem_map.mp hc
      exact ⟨x, none, virt_mem_of_mem_eligible _ _ hx, hcx.symm⟩
    · refine ⟨((eligible networkNS.Endpoints).take m).map (detachCall networkNS.NetNsPath none) ++
          [detachCall networkNS.NetNsPath (some e) ve],
        (by rw [htrace, call_trace]; simp), by simp, ?_⟩
      intro c hc
      rw [List.mem_append] at hc
      rcases hc with hc | hc
      · obtain ⟨x, hx, hcx⟩ := List.mem_map.mp hc
        exact ⟨x, none, virt_mem_of_mem_eligible _ _ (List.mem_of_mem_take hx), hcx.symm⟩
      · refine ⟨ve, some e, virt_mem_of_mem_eligible _ _ (List.getElem?_mem hve), ?_⟩
        simpa [detachCall] using hc

theorem addVirtInterfaces_endpoints (env : Env σ) (w : World σ) (networkNS : NetworkNamespace) :
    ∃ rs : List Result, (addVirtInterfaces env w networkNS).2.1.Endpoints =
      fill networkNS.Endpoints rs := by
  cases hp : (env.NewNetworkPlugin w.ext).1 with
  | some err =>
    rw [addVirtInterfaces_of_plugin_error env w networkNS err hp]
    refine ⟨[], ?_⟩
    apply List.ext_getElem?
    intro i
    exact (fill_getElem?_past _ _ _ (by simp)).symm
  | none =>
    rw [addVirtInterfaces_of_plugin_ok env w networkNS hp]
    obtain ⟨rs, -, -, hfill, -⟩ := attachAll_shape env networkNS.NetNsPath
      networkNS.Endpoints (w.call (env.NewNetworkPlugin w.ext).2 (.NewNetworkPlugin none))
    exact ⟨rs, hfill⟩

theorem trace_eq_append_newCalls (w w2 : World σ) (calls : List Call)
    (h : w2.trace = w.trace ++ calls) : w2.trace = w.trace ++ newCalls w w2 := by
  rw [newCalls_of_trace_eq w w2 calls h, h]

theorem remove_of_teardown_error (env : Env σ) (w : World σ) (pod : Pod)
    (networkNS : NetworkNamespace) (e : String)
    (ht : (env.removeNetworkCommon w.ext networkNS).1 = some e) :
    remove env w pod networkNS =
      (w.call (env.removeNetworkCommon w.ext networkNS).2
        (.removeNetworkCommon networkNS (some e)), some e) := by
  simp only [remove, ht]

theorem remove_of_detach_error (env : Env σ) (w : World σ) (pod : Pod)
    (networkNS : NetworkNamespace) (e : String)
    (ht : (env.removeNetworkCommon w.ext networkNS).1 = none)
    (hd : (deleteVirtInterfaces env
      (w.call (env.removeNetworkCommon w.ext networkNS).2
        (.removeNetworkCommon networkNS none)) networkNS).2 = some e) :
    remove env w pod networkNS =
      ((deleteVirtInterfaces env
        (w.call (env.removeNetworkCommon w.ext networkNS).2
          (.removeNetworkCommon networkNS none)) networkNS).1, some e) := by
  simp only [remove, ht, hd]

theorem remove_of_detach_ok (env : Env σ) (w : World σ) (pod : Pod)
    (networkNS : NetworkNamespace)
    (ht : (env.removeNetworkCommon w.ext networkNS).1 = none)
    (hd : (deleteVirtInterfaces env
      (w.call (env.removeNetworkCommon w.ext networkNS).2
        (.removeNetworkCommon networkNS none)) networkNS).2 = none) :
    remove env w pod networkNS =
      ((deleteVirtInterfaces env
          (w.call (env.removeNetworkCommon w.ext networkNS).2
            (.removeNetworkCommon networkNS none)) networkNS).1.call
          (env.deleteNetNS (deleteVirtInterfaces env
            (w.call (env.removeNetworkCommon w.ext networkNS).2
              (.removeNetworkCommon networkNS none)) networkNS).1.ext
            networkNS.NetNsPath true).2
          (.deleteNetNS networkNS.NetNsPath true
            (env.deleteNetNS (deleteVirtInterfaces env
              (w.call (env.removeNetworkCommon w.ext networkNS).2
                (.removeNetworkCommon networkNS none)) networkNS).1.ext
              networkNS.NetNsPath true).1),
        (env.deleteNetNS (deleteVirtInterfaces env
          (w.call (env.removeNetworkCommon w.ext networkNS).2
            (.removeNetworkCommon networkNS none)) networkNS).1.ext
          networkNS.NetNsPath true).1) := by
  simp only [remove, ht, hd]

theorem remove_calls_shape (env : Env σ) (w : World σ) (pod : Pod)
    (networkNS : NetworkNamespace) :
    ∃ mid tail : List Call,
      (remove env w pod networkNS).1.trace =
        w.trace ++ (.removeNetworkCommon networkNS (env.removeNetworkCommon w.ext networkNS).1 ::
          (mid ++ tail)) ∧
      (∀ c ∈ mid, c.isNewPlugin = true ∨ c.isDetach = true) ∧
      (tail = [] ∨ ∃ x, tail = [.deleteNetNS networkNS.NetNsPath true x]) := by
  cases ht : (env.removeNetworkCommon w.ext networkNS).1 with
  | some e =>
    rw [remove_of_teardown_error env w pod networkNS e ht]
    exact ⟨[], [], by rw [call_trace]; simp, by simp, Or.inl rfl⟩
  | none =>
    obtain ⟨rest, hd, -, hrest⟩ := deleteVirtInterfaces_calls_shape env
      (w.call (env.removeNetworkCommon w.ext networkNS).2
        (.removeNetworkCommon networkNS none)) networkNS
    have hmid : ∀ c ∈ Call.NewNetworkPlugin (env.NewNetworkPlugin
        (w.call (env.removeNetworkCommon w.ext networkNS).2
          (.removeNetworkCommon networkNS none)).ext).1 :: rest,
        c.isNewPlugin = true ∨ c.isDetach = true := by
      intro c hc
      rw [List.mem_cons] at hc
      rcases hc with hc | hc
      · exact Or.inl (by rw [hc]; rfl)
      · obtain ⟨ve, ret, -, hcv⟩ := hrest c hc
        exact Or.inr (by rw [hcv]; rfl)
    cases hde : (deleteVirtInterfaces env
        (w.call (env.removeNetworkCommon w.ext networkNS).2
          (.removeNetworkCommon networkNS none)) networkNS).2 with
    | some e =>
      rw [remove_of_detach_error env w pod networkNS e ht hde]
      refine ⟨_, [], ?_, hmid, Or.inl rfl⟩
      rw [hd, call_trace]
      simp
    | none =>
      rw [remove_of_detach_ok env w pod networkNS ht hde]
      generalize deleteVirtInterfaces env _ networkNS = d at hd ⊢
      refine ⟨_, [.deleteNetNS networkNS.NetNsPath true
        (env.deleteNetNS d.1.ext networkNS.NetNsPath true).1], ?_, hmid, Or.inr ⟨_, rfl⟩⟩
      rw [call_trace, hd, call_trace]
      simp

theorem not_teardown_of_mid (c : Call) (h : c.isNewPlugin = true ∨ c.isDetach = true) :
    c.isCommonTeardown = false := by
  cases c <;> simp [Call.isNewPlugin, Call.isDetach, Call.isCommonTeardown] at h ⊢

theorem not_deleteNetNS_of_mid (c : Call) (h : c.isNewPlugin = true ∨ c.isDetach = true) :
    c.isDeleteNetNS = false := by
  cases c <;> simp [Call.isNewPlugin, Call.isDetach, Call.isDeleteNetNS] at h ⊢

theorem not_teardown_of_deleteNetNS (c : Call) (h : c.isDeleteNetNS = true) :
    c.isCommonTeardown = false := by
  cases c <;> simp [Call.isDeleteNetNS, Call.isCommonTeardown] at h ⊢

theorem not_mid_of_teardown (c : Call) (h : c.isCommonTeardown = true) :
    c.isDetach = false ∧ c.isNewPlugin = false ∧ c.isDeleteNetNS = false := by
  cases c <;> simp [Call.isNewPlugin, Call.isDetach, Call.isDeleteNetNS,
    Call.isCommonTeardown] at h ⊢

theorem teardown_first_of_shape (t : Call) (mid tail : List Call)
    (hmid : ∀ c ∈ mid, c.isNewPlugin = true ∨ c.isDetach = true)
    (htail : ∀ c ∈ tail, c.isDeleteNetNS = true)
    (i : Nat) (c : Call) (hi : (t :: (mid ++ tail))[i]? = some c)
    (hc : c.isCommonTeardown = true) : i = 0 := by
  cases i with
  | zero => rfl
  | succ i =>
    exfalso
    rw [List.getElem?_cons_succ] at hi
    have hmem := List.getElem?_mem hi
    rw [List.mem_append] at hmem
    rcases hmem with hm | hm
    · have := not_teardown_of_mid c (hmid c hm)
      rw [hc] at this
      exact Bool.noConfusion this
    · have := not_teardown_of_deleteNetNS c (htail c hm)
      rw [hc] at this
      exact Bool.noConfusion this

theorem deleteNetNS_last_of_shape (t : Call) (mid tail : List Call)
    (ht : t.isCommonTeardown = true)
    (hmid : ∀ c ∈ mid, c.isNewPlugin = true ∨ c.isDetach = true)
    (htail : tail.length ≤ 1)
    (j : Nat) (c : Call) (hj : (t :: (mid ++ tail))[j]? = some c)
    (hc : c.isDeleteNetNS = true) : j + 1 = (t :: (mid ++ tail)).length := by
  cases j with
  | zero =>
    exfalso
    simp only [List.getElem?_cons_zero, Option.some.injEq] at hj
    subst hj
    have := (not_mid_of_teardown _ ht).2.2
    rw [hc] at this
    exact Bool.noConfusion this
  | succ j =>
    rw [List.getElem?_cons_succ] at hj
    by_cases hlt : j < mid.length
    · exfalso
      rw [List.getElem?_append_left hlt] at hj
      have hm := List.getElem?_mem hj
      have := not_deleteNetNS_of_mid c (hmid c hm)
      rw [hc] at this
      exact Bool.noConfusion this
    · have hlen := (List.getElem?_eq_some_iff.mp hj).1
      simp only [List.length_append] at hlen
      simp only [List.length_cons, List.length_append]
      omega

theorem call_order_of_shape (t : Call) (mid tail : List Call)
    (ht : t.isCommonTeardown = true)
    (hmid : ∀ c ∈ mid, c.isNewPlugin = true ∨ c.isDetach = true)
    (htail1 : ∀ c ∈ tail, c.isDeleteNetNS = true)
    (htail2 : tail.length ≤ 1) :
    (∀ (i j : Nat) (ci cj : Call),
      (t :: (mid ++ tail))[i]? = some ci → (t :: (mid ++ tail))[j]? = some cj →
      ci.isCommonTeardown = true → (cj.isDetach = true ∨ cj.isNewPlugin = true) → i < j) ∧
    (∀ (i j : Nat) (ci cj : Call),
      (t :: (mid ++ tail))[i]? = some ci → (t :: (mid ++ tail))[j]? = some cj →
      ci.isDetach = true → cj.isDeleteNetNS = true → i < j) ∧
    (t :: (mid ++ tail)).countP Call.isCommonTeardown = 1 ∧
    (t :: (mid ++ tail)).countP Call.isDeleteNetNS ≤ 1 := by
  have hmidT : mid.countP Call.isCommonTeardown = 0 := by
    rw [List.countP_eq_zero]
    intro c hc
    rw [not_teardown_of_mid c (hmid c hc)]
    exact Bool.false_ne_true
  have hmidD : mid.countP Call.isDeleteNetNS = 0 := by
    rw [List.countP_eq_zero]
    intro c hc
    rw [not_deleteNetNS_of_mid c (hmid c hc)]
    exact Bool.false_ne_true
  have htailT : tail.countP Call.isCommonTeardown = 0 := by
    rw [List.countP_eq_zero]
    intro c hc
    rw [not_teardown_of_deleteNetNS c (htail1 c hc)]
    exact Bool.false_ne_true
  refine ⟨?_, ?_, ?_, ?_⟩
  · intro i j ci cj hi hj hci hcj
    have hi0 := teardown_first_of_shape t mid tail hmid htail1 i ci hi hci
    subst hi0
    cases j with
    | zero =>
      exfalso
      simp only [List.getElem?_cons_zero, Option.some.injEq] at hj
      subst hj
      have h3 := not_mid_of_teardown _ ht
      rcases hcj with h | h
      · rw [h] at h3; exact Bool.noConfusion h3.1
      · rw [h] at h3; exact Bool.noConfusion h3.2.1
    | succ j => omega
  · intro i j ci cj hi hj hci hcj
    have hjlast := deleteNetNS_last_of_shape t mid tail ht hmid htail2 j cj hj hcj
    have hilt := (List.getElem?_eq_some_iff.mp hi).1
    have hne : i ≠ j := by
      intro h
      subst h
      rw [hi] at hj
      simp only [Option.some.injEq] at hj
      subst hj
      have := not_deleteNetNS_of_mid ci (Or.inr hci)
      rw [hcj] at this
      exact Bool.noConfusion this
    omega
  · rw [List.countP_cons, List.countP_append, hmidT, htailT, ht]
    rfl
  · rw [List.countP_cons, List.countP_append, hmidD, (not_mid_of_teardown _ ht).2.2]
    have : tail.countP Call.isDeleteNetNS ≤ tail.length := List.countP_le_length _
    simp only [Bool.false_eq_true, if_false]
    omega

theorem deleteVirtInterfacesLoop_ext_only (env : Env σ) (netNsPath : String) :
    ∀ (l : List Endpoint) (w w2 : World σ), w.ext = w2.ext →
      (deleteVirtInterfacesLoop env netNsPath l w).2 =
        (deleteVirtInterfacesLoop env netNsPath l w2).2 ∧
      (deleteVirtInterfacesLoop env netNsPath l w).1.ext =
        (deleteVirtInterfacesLoop env netNsPath l w2).1.ext ∧
      ∃ calls : List Call,
        (deleteVirtInterfacesLoop env netNsPath l w).1.trace = w.trace ++ calls ∧
        (deleteVirtInterfacesLoop env netNsPath l w2).1.trace = w2.trace ++ calls := by
  intro l
  induction l with
  | nil =>
    intro w w2 h
    exact ⟨rfl, h, [], by simp [deleteVirtInterfacesLoop], by simp [deleteVirtInterfacesLoop]⟩
  | cons x rest ih =>
    intro w w2 h
    cases x with
    | other kind =>
      simp only [deleteVirtInterfacesLoop]
      exact ih w w2 h
    | virt endpoint =>
      simp only [deleteVirtInterfacesLoop, ← h]
      cases hr : (env.RemoveNetwork w.ext endpoint.NetPair.ID netNsPath
          endpoint.NetPair.VirtIface.Name).1 with
      | some err =>
        exact ⟨rfl, rfl, [_], call_trace _ _ _, call_trace _ _ _⟩
      | none =>
        simp only
        obtain ⟨h1, h2, calls, h3, h4⟩ := ih
          (w.call (env.RemoveNetwork w.ext endpoint.NetPair.ID netNsPath
              endpoint.NetPair.VirtIface.Name).2
            (.RemoveNetwork endpoint.NetPair.ID netNsPath endpoint.NetPair.VirtIface.Name none))
          (w2.call (env.RemoveNetwork w.ext endpoint.NetPair.ID netNsPath
              endpoint.NetPair.VirtIface.Name).2
            (.RemoveNetwork endpoint.NetPair.ID netNsPath endpoint.NetPair.VirtIface.Name none))
          rfl
        refine ⟨h1, h2, Call.RemoveNetwork endpoint.NetPair.ID netNsPath
          endpoint.NetPair.VirtIface.Name none :: calls, ?_, ?_⟩
        · rw [h3, call_trace]; simp
        · rw [h4, call_trace]; simp

theorem deleteVirtInterfaces_ext_only (env : Env σ) (w w2 : World σ)
    (networkNS networkNS2 : NetworkNamespace) (h : w.ext = w2.ext)
    (hpath : networkNS2.NetNsPath = networkNS.NetNsPath)
    (hends : networkNS2.Endpoints = networkNS.Endpoints) :
    (deleteVirtInterfaces env w networkNS).2 = (deleteVirtInterfaces env w2 networkNS2).2 ∧
    (deleteVirtInterfaces env w networkNS).1.ext =
      (deleteVirtInterfaces env w2 networkNS2).1.ext ∧
    ∃ calls : List Call,
      (deleteVirtInterfaces env w networkNS).1.trace = w.trace ++ calls ∧
      (deleteVirtInterfaces env w2 networkNS2).1.trace = w2.trace ++ calls := by
  cases hp : (env.NewNetworkPlugin w.ext).1 with
  | some err =>
    rw [deleteVirtInterfaces_of_plugin_error env w _ err hp,
      deleteVirtInterfaces_of_plugin_error env w2 _ err (by rw [← h]; exact hp), ← h]
    exact ⟨rfl, rfl, [_], call_trace _ _ _, call_trace _ _ _⟩
  | none =>
    rw [deleteVirtInterfaces_of_plugin_ok env w _ hp,
      deleteVirtInterfaces_of_plugin_ok env w2 _ (by rw [← h]; exact hp), ← h, hpath, hends]
    obtain ⟨h1, h2, calls, h3, h4⟩ := deleteVirtInterfacesLoop_ext_only env
      networkNS.NetNsPath networkNS.Endpoints
      (w.call (env.NewNetworkPlugin w.ext).2 (.NewNetworkPlugin none))
      (w2.call (env.NewNetworkPlugin w.ext).2 (.NewNetworkPlugin none)) rfl
    refine ⟨h1, h2, Call.NewNetworkPlugin none :: calls, ?_, ?_⟩
    · rw [h3, call_trace]; simp
    · rw [h4, call_trace]; simp

theorem no_deleteNetNS_in_detach (env : Env σ) (w : World σ) (networkNS : NetworkNamespace) :
    ∀ c ∈ newCalls w (deleteVirtInterfaces env w networkNS).1, c.isDeleteNetNS = false := by
  intro c hc
  obtain ⟨rest, htrace, -, hrest⟩ := deleteVirtInterfaces_calls_shape env w networkNS
  rw [newCalls_of_trace_eq _ _ _ htrace, List.mem_cons] at hc
  rcases hc with hc | hc
  · rw [hc]; rfl
  · obtain ⟨ve, ret, -, hcv⟩ := hrest c hc
    rw [hcv]; rfl

theorem detach_trace (env : Env σ) (w : World σ) (networkNS : NetworkNamespace) :
    (deleteVirtInterfaces env w networkNS).1.trace =
      w.trace ++ newCalls w (deleteVirtInterfaces env w networkNS).1 := by
  obtain ⟨rest, htrace, -, -⟩ := deleteVirtInterfaces_calls_shape env w networkNS
  exact trace_eq_append_newCalls _ _ _ htrace

theorem attach_trace (env : Env σ) (w : World σ) (networkNS : NetworkNamespace) :
    (addVirtInterfaces env w networkNS).1.trace =
      w.trace ++ newCalls w (addVirtInterfaces env w networkNS).1 := by
  obtain ⟨rest, htrace, -, -⟩ := addVirtInterfaces_calls_shape env w networkNS
  exact trace_eq_append_newCalls _ _ _ htrace

theorem remove_calls_of_teardown_error (env : Env σ) (w : World σ) (pod : Pod)
    (networkNS : NetworkNamespace) (e : String)
    (ht : (env.removeNetworkCommon w.ext networkNS).1 = some e) :
    (remove env w pod networkNS).2 = some e ∧
    newCalls w (remove env w pod networkNS).1 = [.removeNetworkCommon networkNS (some e)] := by
  rw [remove_of_teardown_error env w pod networkNS e ht]
  exact ⟨rfl, newCalls_of_trace_eq _ _ _ (call_trace _ _ _)⟩

theorem remove_calls_of_detach_error (env : Env σ) (w : World σ) (pod : Pod)
    (networkNS : NetworkNamespace) (e : String)
    (ht : (env.removeNetworkCommon w.ext networkNS).1 = none)
    (hd : (deleteVirtInterfaces env (afterTeardown env w networkNS) networkNS).2 = some e) :
    (remove env w pod networkNS).2 = some e ∧
    newCalls w (remove env w pod networkNS).1 =
      .removeNetworkCommon networkNS none ::
        newCalls (afterTeardown env w networkNS)
          (deleteVirtInterfaces env (afterTeardown env w networkNS) networkNS).1 := by
  rw [remove_of_detach_error env w pod networkNS e ht hd]
  refine ⟨rfl, newCalls_of_trace_eq _ _ _ ?_⟩
  show (deleteVirtInterfaces env (afterTeardown env w networkNS) networkNS).1.trace = _
  rw [detach_trace]
  simp [afterTeardown, call_trace]

theorem remove_calls_of_detach_ok (env : Env σ) (w : World σ) (pod : Pod)
    (networkNS : NetworkNamespace)
    (ht : (env.removeNetworkCommon w.ext networkNS).1 = none)
    (hd : (deleteVirtInterfaces env (afterTeardown env w networkNS) networkNS).2 = none) :
    (remove env w pod networkNS).2 =
      (env.deleteNetNS (deleteVirtInterfaces env (afterTeardown env w networkNS) networkNS).1.ext
        networkNS.NetNsPath true).1 ∧
    (remove env w pod networkNS).1.ext =
      (env.deleteNetNS (deleteVirtInterfaces env (afterTeardown env w networkNS) networkNS).1.ext
        networkNS.NetNsPath true).2 ∧
    newCalls w (remove env w pod networkNS).1 =
      .removeNetworkCommon networkNS none ::
        (newCalls (afterTeardown env w networkNS)
            (deleteVirtInterfaces env (afterTeardown env w networkNS) networkNS).1 ++
          [.deleteNetNS networkNS.NetNsPath true
            (env.deleteNetNS
              (deleteVirtInterfaces env (afterTeardown env w networkNS) networkNS).1.ext
              networkNS.NetNsPath true).1]) := by
  rw [remove_of_detach_ok env w pod networkNS ht hd]
  refine ⟨rfl, rfl, newCalls_of_trace_eq _ _ _ ?_⟩
  show ((deleteVirtInterfaces env (afterTeardown env w networkNS) networkNS).1.call _ _).trace = _
  rw [call_trace, detach_trace]
  simp [afterTeardown, call_trace]

theorem add_of_create_error (env : Env σ) (w : World σ) (pod : Pod) (config : NetworkConfig)
    (netNsPath : String) (netNsCreated : Bool) (e : String)
    (hc : (env.createNetworkEndpoints w.ext config.NumInterfaces).1 = .error e) :
    add env w pod config netNsPath netNsCreated =
      (w.call (env.createNetworkEndpoints w.ext config.NumInterfaces).2
        (.createNetworkEndpoints config.NumInterfaces (.error e)),
        NetworkNamespace.zero, some e) := by
  simp only [add, hc]

theorem add_of_attach_error (env : Env σ) (w : World σ) (pod : Pod) (config : NetworkConfig)
    (netNsPath : String) (netNsCreated : Bool) (endpoints : List Endpoint) (e : String)
    (hc : (env.createNetworkEndpoints w.ext config.NumInterfaces).1 = .ok endpoints)
    (ha : (addVirtInterfaces env (afterCreate env w config endpoints)
      (assembled netNsPath netNsCreated endpoints)).2.2 = some e) :
    add env w pod config netNsPath netNsCreated =
      ((addVirtInterfaces env (afterCreate env w config endpoints)
        (assembled netNsPath netNsCreated endpoints)).1, NetworkNamespace.zero, some e) := by
  simp only [afterCreate, assembled] at ha
  simp only [add, hc, ha, afterCreate, assembled]

theorem add_of_setup_error (env : Env σ) (w : World σ) (pod : Pod) (config : NetworkConfig)
    (netNsPath : String) (netNsCreated : Bool) (endpoints : List Endpoint) (e : String)
    (hc : (env.createNetworkEndpoints w.ext config.NumInterfaces).1 = .ok endpoints)
    (ha : (addVirtInterfaces env (afterCreate env w config endpoints)
      (assembled netNsPath netNsCreated endpoints)).2.2 = none)
    (hs : (env.addNetworkCommon
      (addVirtInterfaces env (afterCreate env w config endpoints)
        (assembled netNsPath netNsCreated endpoints)).1.ext pod
      (addVirtInterfaces env (afterCreate env w config endpoints)
        (assembled netNsPath netNsCreated endpoints)).2.1).1.2 = some e) :
    add env w pod config netNsPath netNsCreated =
      ((addVirtInterfaces env (afterCreate env w config endpoints)
          (assembled netNsPath netNsCreated endpoints)).1.call
          (env.addNetworkCommon
            (addVirtInterfaces env (afterCreate env w config endpoints)
              (assembled netNsPath netNsCreated endpoints)).1.ext pod
            (addVirtInterfaces env (afterCreate env w config endpoints)
              (assembled netNsPath netNsCreated endpoints)).2.1).2
          (.addNetworkCommon pod
            (addVirtInterfaces env (afterCreate env w config endpoints)
              (assembled netNsPath netNsCreated endpoints)).2.1
            (env.addNetworkCommon
              (addVirtInterfaces env (afterCreate env w config endpoints)
                (assembled netNsPath netNsCreated endpoints)).1.ext pod
              (addVirtInterfaces env (afterCreate env w config endpoints)
                (assembled netNsPath netNsCreated endpoints)).2.1).1.1 (some e)),
        NetworkNamespace.zero, some e) := by
  simp only [afterCreate, assembled] at ha hs
  simp only [add, hc, ha, hs, afterCreate, assembled]

theorem add_of_setup_ok (env : Env σ) (w : World σ) (pod : Pod) (config : NetworkConfig)
    (netNsPath : String) (netNsCreated : Bool) (endpoints : List Endpoint)
    (hc : (env.createNetworkEndpoints w.ext config.NumInterfaces).1 = .ok endpoints)
    (ha : (addVirtInterfaces env (afterCreate env w config endpoints)
      (assembled netNsPath netNsCreated endpoints)).2.2 = none)
    (hs : (env.addNetworkCommon
      (addVirtInterfaces env (afterCreate env w config endpoints)
        (assembled netNsPath netNsCreated endpoints)).1.ext pod
      (addVirtInterfaces env (afterCreate env w config endpoints)
        (assembled netNsPath netNsCreated endpoints)).2.1).1.2 = none) :
    add env w pod config netNsPath netNsCreated =
      ((addVirtInterfaces env (afterCreate env w config endpoints)
          (assembled netNsPath netNsCreated endpoints)).1.call
          (env.addNetworkCommon
            (addVirtInterfaces env (afterCreate env w config endpoints)
              (assembled netNsPath netNsCreated endpoints)).1.ext pod
            (addVirtInterfaces env (afterCreate env w config endpoints)
              (assembled netNsPath netNsCreated endpoints)).2.1).2
          (.addNetworkCommon pod
            (addVirtInterfaces env (afterCreate env w config endpoints)
              (assembled netNsPath netNsCreated endpoints)).2.1
            (env.addNetworkCommon
              (addVirtInterfaces env (afterCreate env w config endpoints)
                (assembled netNsPath netNsCreated endpoints)).1.ext pod
              (addVirtInterfaces env (afterCreate env w config endpoints)
                (assembled netNsPath netNsCreated endpoints)).2.1).1.1 none),
        (env.addNetworkCommon
          (addVirtInterfaces env (afterCreate env w config endpoints)
            (assembled netNsPath netNsCreated endpoints)).1.ext pod
          (addVirtInterfaces env (afterCreate env w config endpoints)
            (assembled netNsPath netNsCreated endpoints)).2.1).1.1, none) := by
  simp only [afterCreate, assembled] at ha hs
  simp only [add, hc, ha, hs, afterCreate, assembled]

theorem no_setup_in_attach (env : Env σ) (w : World σ) (networkNS : NetworkNamespace) :
    ∀ c ∈ newCalls w (addVirtInterfaces env w networkNS).1, c.isCommonSetup = false := by
  intro c hc
  obtain ⟨rest, htrace, -, hrest⟩ := addVirtInterfaces_calls_shape env w networkNS
  rw [newCalls_of_trace_eq _ _ _ htrace, List.mem_cons] at hc
  rcases hc with hc | hc
  · rw [hc]; rfl
  · obtain ⟨ve, ret, -, hcv⟩ := hrest c hc
    rw [hcv]; rfl

theorem addVirtInterfaces_fields (env : Env σ) (w : World σ) (networkNS : NetworkNamespace) :
    (addVirtInterfaces env w networkNS).2.1.NetNsPath = networkNS.NetNsPath ∧
    (addVirtInterfaces env w networkNS).2.1.NetNsCreated = networkNS.NetNsCreated := by
  cases hp : (env.NewNetworkPlugin w.ext).1 with
  | some err =>
    rw [addVirtInterfaces_of_plugin_error env w networkNS err hp]
    exact ⟨rfl, rfl⟩
  | none =>
    rw [addVirtInterfaces_of_plugin_ok env w networkNS hp]
    exact ⟨rfl, rfl⟩

/-! ## The attach sequence -/

/-- C1: when the plugin client is constructed and no attach call fails,
`addVirtInterfaces` returns nil and makes, after the client construction,
exactly one `AddNetwork` call per eligible endpoint, in endpoint order, with the
arguments `(NetPair.ID, NetNsPath, NetPair.VirtIface.Name)`; the call of the
eligible endpoint at index `i` returned a result `r`, and afterwards the
endpoint at index `i` is that endpoint with `Properties = r`.  Non-eligible
endpoints, the length, `NetNsPath` and `NetNsCreated` are unchanged, one log
line is written per result, and with no eligible endpoint no attach call is made
and the record is unchanged. -/
theorem addVirtInterfaces_attaches_each_eligible_endpoint (env : Env σ) (w : World σ)
    (networkNS : NetworkNamespace)
    (hnew : (env.NewNetworkPlugin w.ext).1 = none)
    (hattach : ∀ c ∈ newCalls w (addVirtInterfaces env w networkNS).1,
      c.isFailedAttach = false) :
    (addVirtInterfaces env w networkNS).2.2 = none ∧
    ∃ rs : List Result,
      rs.length = (eligible networkNS.Endpoints).length ∧
      newCalls w (addVirtInterfaces env w networkNS).1 =
        .NewNetworkPlugin none ::
          List.zipWith (attachOk networkNS.NetNsPath) (eligible networkNS.Endpoints) rs ∧
      (∀ (i : Nat) (endpoint : VirtualEndpoint),
        networkNS.Endpoints[i]? = some (.virt endpoint) →
        ∃ r, rs[(eligible (networkNS.Endpoints.take i)).length]? = some r ∧
          (newCalls w (addVirtInterfaces env w networkNS).1)[
              1 + (eligible (networkNS.Endpoints.take i)).length]? =
            some (attachOk networkNS.NetNsPath endpoint r) ∧
          (addVirtInterfaces env w networkNS).2.1.Endpoints[i]? =
            some (.virt { endpoint with Properties := r })) ∧
      (∀ (i : Nat) (kind : String),
        networkNS.Endpoints[i]? = some (.other kind) →
        (addVirtInterfaces env w networkNS).2.1.Endpoints[i]? = some (.other kind)) ∧
      (addVirtInterfaces env w networkNS).2.1.Endpoints.length = networkNS.Endpoints.length ∧
      (addVirtInterfaces env w networkNS).2.1.NetNsPath = networkNS.NetNsPath ∧
      (addVirtInterfaces env w networkNS).2.1.NetNsCreated = networkNS.NetNsCreated ∧
      (addVirtInterfaces env w networkNS).1.log = w.log ++ rs ∧
      (eligible networkNS.Endpoints = [] →
        newCalls w (addVirtInterfaces env w networkNS).1 = [.NewNetworkPlugin none] ∧
        (addVirtInterfaces env w networkNS).2.1 = networkNS) := by
  rw [addVirtInterfaces_of_plugin_ok env w networkNS hnew] at hattach ⊢
  obtain ⟨rs, hlen, hlog, hfill, hcase⟩ := attachAll_shape env networkNS.NetNsPath
    networkNS.Endpoints (w.call (env.NewNetworkPlugin w.ext).2 (.NewNetworkPlugin none))
  rcases hcase with ⟨herr, hrs, htrace⟩ | ⟨e, ve, herr, hve, htrace⟩
  · have hcalls : newCalls w (attachAll env networkNS.NetNsPath networkNS.Endpoints
        (w.call (env.NewNetworkPlugin w.ext).2 (.NewNetworkPlugin none))).1 =
        .NewNetworkPlugin none ::
          List.zipWith (attachOk networkNS.NetNsPath) (eligible networkNS.Endpoints) rs := by
      apply newCalls_of_trace_eq
      rw [htrace]
      simp [World.call]
    refine ⟨herr, rs, hrs, hcalls, ?_, ?_, ?_, rfl, rfl, ?_, ?_⟩
    · intro i endpoint hi
      have hj := eligible_take_lt networkNS.Endpoints i endpoint hi
      have hjlt : (eligible (networkNS.Endpoints.take i)).length < rs.length := by
        rw [hrs]
        by_contra hc
        rw [List.getElem?_eq_none (by omega)] at hj
        simp at hj
      refine ⟨rs[(eligible (networkNS.Endpoints.take i)).length], ?_, ?_, ?_⟩
      · exact List.getElem?_eq_getElem hjlt
      · rw [hcalls, Nat.add_comm, List.getElem?_cons_succ, List.getElem?_zipWith, hj,
          List.getElem?_eq_getElem hjlt]
      · simp only [hfill]
        exact fill_getElem?_virt _ _ _ _ _ hi (List.getElem?_eq_getElem hjlt)
    · intro i kind hi
      simp only [hfill]
      exact fill_getElem?_other _ _ _ _ hi
    · simp only [hfill, fill_length]
    · simpa [World.call] using hlog
    · intro hnone
      refine ⟨by rw [hcalls, hnone]; simp, ?_⟩
      have hrs0 : rs = [] := by
        apply List.eq_nil_of_length_eq_zero
        rw [hrs, hnone]; rfl
      have : fill networkNS.Endpoints [] = networkNS.Endpoints := by
        apply List.ext_getElem?
        intro i
        exact fill_getElem?_past _ _ _ (by simp)
      simp only [hfill, hrs0, this]
  · exfalso
    have hmem : attachFail networkNS.NetNsPath ve e ∈
        newCalls w (attachAll env networkNS.NetNsPath networkNS.Endpoints
          (w.call (env.NewNetworkPlugin w.ext).2 (.NewNetworkPlugin none))).1 := by
      rw [newCalls_of_trace_eq w _ (.NewNetworkPlugin none ::
        (List.zipWith (attachOk networkNS.NetNsPath) (eligible networkNS.Endpoints) rs ++
          [attachFail networkNS.NetNsPath ve e])) (by rw [htrace]; simp [World.call])]
      simp
    have := hattach _ hmem
    simp [attachFail, Call.isFailedAttach] at this

/-- C2: when the plugin client is constructed, the attach calls for the
endpoints below index `k` all succeed (the attach sequence over the first `k`
endpoints returns nil) and the attach call for the eligible endpoint at index
`k`, made in the external state those calls leave, fails with `e`, then
`addVirtInterfaces` returns exactly `e`; its calls are the client construction,
the successful attach calls of the eligible endpoints below `k` and, last, the
failing call (no later attach, no retry, no `RemoveNetwork`); every eligible
endpoint below `k` carries the result of its own call, and the endpoints at
index `k` and above are unchanged. -/
theorem addVirtInterfaces_first_failed_attach (env : Env σ) (w : World σ)
    (networkNS : NetworkNamespace) (k : Nat) (endpoint : VirtualEndpoint) (e : String)
    (hnew : (env.NewNetworkPlugin w.ext).1 = none)
    (hk : networkNS.Endpoints[k]? = some (.virt endpoint))
    (hbefore : (addVirtInterfaces env w
      { networkNS with Endpoints := networkNS.Endpoints.take k }).2.2 = none)
    (hfail : (env.AddNetwork
      (addVirtInterfaces env w
        { networkNS with Endpoints := networkNS.Endpoints.take k }).1.ext
      endpoint.NetPair.ID networkNS.NetNsPath endpoint.NetPair.VirtIface.Name).1 = .error e) :
    (addVirtInterfaces env w networkNS).2.2 = some e ∧
    ∃ rs : List Result,
      rs.length = (eligible (networkNS.Endpoints.take k)).length ∧
      newCalls w (addVirtInterfaces env w networkNS).1 =
        .NewNetworkPlugin none ::
          (List.zipWith (attachOk networkNS.NetNsPath)
            (eligible (networkNS.Endpoints.take k)) rs ++
            [attachFail networkNS.NetNsPath endpoint e]) ∧
      (∀ (i : Nat) (below : VirtualEndpoint), i < k →
        networkNS.Endpoints[i]? = some (.virt below) →
        ∃ r, rs[(eligible (networkNS.Endpoints.take i)).length]? = some r ∧
          (newCalls w (addVirtInterfaces env w networkNS).1)[
              1 + (eligible (networkNS.Endpoints.take i)).length]? =
            some (attachOk networkNS.NetNsPath below r) ∧
          (addVirtInterfaces env w networkNS).2.1.Endpoints[i]? =
            some (.virt { below with Properties := r })) ∧
      (∀ (i : Nat), k ≤ i →
        (addVirtInterfaces env w networkNS).2.1.Endpoints[i]? = networkNS.Endpoints[i]?) ∧
      (addVirtInterfaces env w networkNS).2.1.Endpoints.length = networkNS.Endpoints.length ∧
      (addVirtInterfaces env w networkNS).2.1.NetNsPath = networkNS.NetNsPath ∧
      (addVirtInterfaces env w networkNS).2.1.NetNsCreated = networkNS.NetNsCreated ∧
      (addVirtInterfaces env w networkNS).1.log = w.log ++ rs := by
  obtain ⟨hklt, hsplit⟩ := split_at_index networkNS.Endpoints k _ hk
  rw [addVirtInterfaces_of_plugin_ok env w _ hnew] at hbefore hfail
  simp only at hbefore hfail
  obtain ⟨rs, -, hlog, hfill, hcase⟩ := attachAll_shape env networkNS.NetNsPath
    (networkNS.Endpoints.take k) (w.call (env.NewNetworkPlugin w.ext).2 (.NewNetworkPlugin none))
  rcases hcase with ⟨-, hrs, htrace⟩ | ⟨e2, ve, herr, -, -⟩
  swap
  · rw [hbefore] at herr
    simp at herr
  have hout : attachAll env networkNS.NetNsPath networkNS.Endpoints
      (w.call (env.NewNetworkPlugin w.ext).2 (.NewNetworkPlugin none)) =
      ((attachAll env networkNS.NetNsPath (networkNS.Endpoints.take k)
          (w.call (env.NewNetworkPlugin w.ext).2 (.NewNetworkPlugin none))).1.call
          (env.AddNetwork (attachAll env networkNS.NetNsPath (networkNS.Endpoints.take k)
            (w.call (env.NewNetworkPlugin w.ext).2 (.NewNetworkPlugin none))).1.ext
            endpoint.NetPair.ID networkNS.NetNsPath endpoint.NetPair.VirtIface.Name).2
          (attachFail networkNS.NetNsPath endpoint e),
        fill (networkNS.Endpoints.take k) rs ++
          .virt endpoint :: networkNS.Endpoints.drop (k + 1), some e) := by
    conv_lhs => rw [hsplit]
    rw [attachAll_append_of_ok env _ _ _ _ hbefore,
      attachAll_cons_virt_error env _ _ _ _ e hfail, hfill]
  rw [addVirtInterfaces_of_plugin_ok env w networkNS hnew, hout]
  have hcalls : newCalls w
      ((attachAll env networkNS.NetNsPath (networkNS.Endpoints.take k)
          (w.call (env.NewNetworkPlugin w.ext).2 (.NewNetworkPlugin none))).1.call
          (env.AddNetwork (attachAll env networkNS.NetNsPath (networkNS.Endpoints.take k)
            (w.call (env.NewNetworkPlugin w.ext).2 (.NewNetworkPlugin none))).1.ext
            endpoint.NetPair.ID networkNS.NetNsPath endpoint.NetPair.VirtIface.Name).2
          (attachFail networkNS.NetNsPath endpoint e)) =
      .NewNetworkPlugin none ::
        (List.zipWith (attachOk networkNS.NetNsPath)
          (eligible (networkNS.Endpoints.take k)) rs ++
          [attachFail networkNS.NetNsPath endpoint e]) := by
    apply newCalls_of_trace_eq
    rw [call_trace, htrace, call_trace]
    simp
  have hlenfill : (fill (networkNS.Endpoints.take k) rs).length = k := by
    rw [fill_length, List.length_take]
    omega
  refine ⟨rfl, rs, hrs, hcalls, ?_, ?_, ?_, rfl, rfl, ?_⟩
  · intro i below hik hi
    have hi2 : (networkNS.Endpoints.take k)[i]? = some (.virt below) := by
      rw [List.getElem?_take_of_lt hik]
      exact hi
    obtain ⟨r, h1, h2, h3⟩ := fill_virt_index networkNS.NetNsPath _ rs hrs i below hi2
    have htake : (networkNS.Endpoints.take k).take i = networkNS.Endpoints.take i := by
      rw [List.take_take, Nat.min_eq_left (Nat.le_of_lt hik)]
    rw [htake] at h1 h2
    refine ⟨r, h1, ?_, ?_⟩
    · rw [hcalls, Nat.add_comm, List.getElem?_cons_succ,
        List.getElem?_append_left (by
          have := List.getElem?_eq_some_iff.mp h2
          exact this.1)]
      exact h2
    · simp only
      rw [List.getElem?_append_left (by omega)]
      exact h3
  · intro i hki
    simp only
    rw [List.getElem?_append_right (by omega), hlenfill]
    conv_rhs => rw [hsplit]
    rw [List.getElem?_append_right (by rw [List.length_take]; omega), List.length_take,
      Nat.min_eq_left (Nat.le_of_lt hklt)]
  · simp only [List.length_append, hlenfill, List.length_cons, List.length_drop]
    omega
  · simpa [World.call] using hlog

/-! ## The detach sequence -/

/-- C7: when the plugin client is constructed, the `RemoveNetwork` calls of
`deleteVirtInterfaces` follow the client construction and are made for the
eligible endpoints in the namespace's own order: for all of them, each
returning nil, when the result is nil; otherwise for the first `m` of them,
each returning nil, and then for the next one, whose error is the result (no
call for the endpoints after it).  The argument tuples of the detach calls are
thus a leading part of the list of `(NetPair.ID, NetNsPath,
NetPair.VirtIface.Name)` over the eligible endpoints, the whole list on
success, and the same holds for the attach calls of `addVirtInterfaces` on the
same record. -/
theorem deleteVirtInterfaces_detaches_in_endpoint_order (env : Env σ) (w : World σ)
    (networkNS : NetworkNamespace)
    (hnew : (env.NewNetworkPlugin w.ext).1 = none) :
    (∃ m : Nat, m ≤ (eligible networkNS.Endpoints).length ∧
      (((deleteVirtInterfaces env w networkNS).2 = none ∧
          m = (eligible networkNS.Endpoints).length ∧
          newCalls w (deleteVirtInterfaces env w networkNS).1 =
            .NewNetworkPlugin none ::
              (eligible networkNS.Endpoints).map (detachCall networkNS.NetNsPath none)) ∨
        (∃ e endpoint, (deleteVirtInterfaces env w networkNS).2 = some e ∧
          (eligible networkNS.Endpoints)[m]? = some endpoint ∧
          newCalls w (deleteVirtInterfaces env w networkNS).1 =
            .NewNetworkPlugin none ::
              (((eligible networkNS.Endpoints).take m).map
                  (detachCall networkNS.NetNsPath none) ++
                [detachCall networkNS.NetNsPath (some e) endpoint])))) ∧
    ((∃ n : Nat, (newCalls w (deleteVirtInterfaces env w networkNS).1).filterMap
          Call.pluginArgs =
        ((eligible networkNS.Endpoints).map (pluginTuple networkNS.NetNsPath)).take n) ∧
      ((deleteVirtInterfaces env w networkNS).2 = none →
        (newCalls w (deleteVirtInterfaces env w networkNS).1).filterMap Call.pluginArgs =
          (eligible networkNS.Endpoints).map (pluginTuple networkNS.NetNsPath))) ∧
    (∀ w2 : World σ, (env.NewNetworkPlugin w2.ext).1 = none →
      (∃ n : Nat, (newCalls w2 (addVirtInterfaces env w2 networkNS).1).filterMap
          Call.pluginArgs =
        ((eligible networkNS.Endpoints).map (pluginTuple networkNS.NetNsPath)).take n) ∧
      ((addVirtInterfaces env w2 networkNS).2.2 = none →
        (newCalls w2 (addVirtInterfaces env w2 networkNS).1).filterMap Call.pluginArgs =
          (eligible networkNS.Endpoints).map (pluginTuple networkNS.NetNsPath))) := by
  have hshape : ∃ m : Nat, m ≤ (eligible networkNS.Endpoints).length ∧
      (((deleteVirtInterfaces env w networkNS).2 = none ∧
          m = (eligible networkNS.Endpoints).length ∧
          newCalls w (deleteVirtInterfaces env w networkNS).1 =
            .NewNetworkPlugin none ::
              (eligible networkNS.Endpoints).map (detachCall networkNS.NetNsPath none)) ∨
        (∃ e endpoint, (deleteVirtInterfaces env w networkNS).2 = some e ∧
          (eligible networkNS.Endpoints)[m]? = some endpoint ∧
          newCalls w (deleteVirtInterfaces env w networkNS).1 =
            .NewNetworkPlugin none ::
              (((eligible networkNS.Endpoints).take m).map
                  (detachCall networkNS.NetNsPath none) ++
                [detachCall networkNS.NetNsPath (some e) endpoint]))) := by
    rw [deleteVirtInterfaces_of_plugin_ok env w networkNS hnew]
    obtain ⟨m, hm, -, hcase⟩ := deleteVirtInterfacesLoop_shape env networkNS.NetNsPath
      networkNS.Endpoints (w.call (env.NewNetworkPlugin w.ext).2 (.NewNetworkPlugin none))
    refine ⟨m, hm, ?_⟩
    rcases hcase with ⟨herr, hmN, htrace⟩ | ⟨e, ve, herr, hve, htrace⟩
    · refine Or.inl ⟨herr, hmN, ?_⟩
      apply newCalls_of_trace_eq
      rw [htrace, call_trace]
      simp
    · refine Or.inr ⟨e, ve, herr, hve, ?_⟩
      apply newCalls_of_trace_eq
      rw [htrace, call_trace]
      simp
  refine ⟨hshape, ?_, ?_⟩
  · obtain ⟨m, hm, hcase⟩ := hshape
    rcases hcase with ⟨herr, hmN, hcalls⟩ | ⟨e, ve, herr, hve, hcalls⟩
    · have hargs : (newCalls w (deleteVirtInterfaces env w networkNS).1).filterMap
          Call.pluginArgs =
          (eligible networkNS.Endpoints).map (pluginTuple networkNS.NetNsPath) := by
        rw [hcalls, List.filterMap_cons_none (by rfl), pluginArgs_detachCall]
      refine ⟨⟨(eligible networkNS.Endpoints).length, ?_⟩, fun _ => hargs⟩
      rw [hargs]
      simp
    · refine ⟨⟨m + 1, ?_⟩, ?_⟩
      · rw [hcalls, ← take_succ_map_of_getElem? _ _ _ _ hve,
          List.filterMap_cons_none (by rfl), List.filterMap_append, pluginArgs_detachCall,
          List.map_take]
        rfl
      · intro hnone
        rw [hnone] at herr
        simp at herr
  · intro w2 hnew2
    rw [addVirtInterfaces_of_plugin_ok env w2 networkNS hnew2]
    obtain ⟨rs, hlen, -, -, hcase⟩ := attachAll_shape env networkNS.NetNsPath
      networkNS.Endpoints (w2.call (env.NewNetworkPlugin w2.ext).2 (.NewNetworkPlugin none))
    rcases hcase with ⟨herr, hrs, htrace⟩ | ⟨e, ve, herr, hve, htrace⟩
    · have hargs : (newCalls w2 (attachAll env networkNS.NetNsPath networkNS.Endpoints
          (w2.call (env.NewNetworkPlugin w2.ext).2 (.NewNetworkPlugin none))).1).filterMap
          Call.pluginArgs =
          (eligible networkNS.Endpoints).map (pluginTuple networkNS.NetNsPath) := by
        rw [newCalls_of_trace_eq w2 _ (.NewNetworkPlugin none ::
          List.zipWith (attachOk networkNS.NetNsPath) (eligible networkNS.Endpoints) rs)
          (by rw [htrace, call_trace]; simp)]
        simp [Call.pluginArgs, pluginArgs_attachOk, hrs]
      refine ⟨⟨(eligible networkNS.Endpoints).length, ?_⟩, fun _ => hargs⟩
      simp only
      rw [hargs]
      simp
    · refine ⟨⟨rs.length + 1, ?_⟩, ?_⟩
      · simp only
        rw [newCalls_of_trace_eq w2 _ (.NewNetworkPlugin none ::
          (List.zipWith (attachOk networkNS.NetNsPath) (eligible networkNS.Endpoints) rs ++
            [attachFail networkNS.NetNsPath ve e]))
          (by rw [htrace, call_trace]; simp),
          ← take_succ_map_of_getElem? _ _ _ _ hve]
        simp [Call.pluginArgs, pluginArgs_attachOk, attachFail, pluginTuple]
      · intro hnone
        simp only at hnone
        rw [hnone] at herr
        simp at herr

/-! ## Non-eligible endpoints -/

/-- C4: every call `addVirtInterfaces` makes is the client construction or an
`AddNetwork` call for a `VirtualEndpoint` of the record, and every call
`deleteVirtInterfaces` makes is the client construction or a `RemoveNetwork`
call for a `VirtualEndpoint` of the record, with the endpoint's own
`(NetPair.ID, NetNsPath, NetPair.VirtIface.Name)`; the world reached and the
error returned are those of the same run on the record with its non-eligible
endpoints removed (a non-eligible endpoint adds no call and no error and does
not stop the loop); and `addVirtInterfaces` leaves each non-eligible endpoint
unchanged at its index and the length of the sequence unchanged. -/
theorem non_eligible_endpoints_are_skipped (env : Env σ) (w : World σ)
    (networkNS : NetworkNamespace) :
    (∀ c ∈ newCalls w (addVirtInterfaces env w networkNS).1,
      c.isNewPlugin = true ∨
      ∃ endpoint ret, Endpoint.virt endpoint ∈ networkNS.Endpoints ∧
        c = .AddNetwork endpoint.NetPair.ID networkNS.NetNsPath
          endpoint.NetPair.VirtIface.Name ret) ∧
    (∀ c ∈ newCalls w (deleteVirtInterfaces env w networkNS).1,
      c.isNewPlugin = true ∨
      ∃ endpoint ret, Endpoint.virt endpoint ∈ networkNS.Endpoints ∧
        c = .RemoveNetwork endpoint.NetPair.ID networkNS.NetNsPath
          endpoint.NetPair.VirtIface.Name ret) ∧
    (addVirtInterfaces env w
        { networkNS with Endpoints := networkNS.Endpoints.filter (fun x => !x.isOther) }).1 =
      (addVirtInterfaces env w networkNS).1 ∧
    (addVirtInterfaces env w
        { networkNS with Endpoints := networkNS.Endpoints.filter (fun x => !x.isOther) }).2.2 =
      (addVirtInterfaces env w networkNS).2.2 ∧
    deleteVirtInterfaces env w
        { networkNS with Endpoints := networkNS.Endpoints.filter (fun x => !x.isOther) } =
      deleteVirtInterfaces env w networkNS ∧
    (∀ (i : Nat) (kind : String), networkNS.Endpoints[i]? = some (.other kind) →
      (addVirtInterfaces env w networkNS).2.1.Endpoints[i]? = some (.other kind)) ∧
    (addVirtInterfaces env w networkNS).2.1.Endpoints.length = networkNS.Endpoints.length := by
  refine ⟨?_, ?_, ?_, ?_, ?_, ?_, ?_⟩
  · intro c hc
    obtain ⟨rest, hcalls, -, hrest⟩ := addVirtInterfaces_calls_shape env w networkNS
    rw [newCalls_of_trace_eq _ _ _ hcalls, List.mem_cons] at hc
    rcases hc with hc | hc
    · exact Or.inl (by rw [hc]; rfl)
    · exact Or.inr (hrest c hc)
  · intro c hc
    obtain ⟨rest, hcalls, -, hrest⟩ := deleteVirtInterfaces_calls_shape env w networkNS
    rw [newCalls_of_trace_eq _ _ _ hcalls, List.mem_cons] at hc
    rcases hc with hc | hc
    · exact Or.inl (by rw [hc]; rfl)
    · exact Or.inr (hrest c hc)
  · cases hp : (env.NewNetworkPlugin w.ext).1 with
    | some err =>
      rw [addVirtInterfaces_of_plugin_error env w _ err hp,
        addVirtInterfaces_of_plugin_error env w _ err hp]
    | none =>
      rw [addVirtInterfaces_of_plugin_ok env w _ hp, addVirtInterfaces_of_plugin_ok env w _ hp]
      exact (attachAll_filter env networkNS.NetNsPath networkNS.Endpoints _).1
  · cases hp : (env.NewNetworkPlugin w.ext).1 with
    | some err =>
      rw [addVirtInterfaces_of_plugin_error env w _ err hp,
        addVirtInterfaces_of_plugin_error env w _ err hp]
    | none =>
      rw [addVirtInterfaces_of_plugin_ok env w _ hp, addVirtInterfaces_of_plugin_ok env w _ hp]
      exact (attachAll_filter env networkNS.NetNsPath networkNS.Endpoints _).2
  · cases hp : (env.NewNetworkPlugin w.ext).1 with
    | some err =>
      rw [deleteVirtInterfaces_of_plugin_error env w _ err hp,
        deleteVirtInterfaces_of_plugin_error env w _ err hp]
    | none =>
      rw [deleteVirtInterfaces_of_plugin_ok env w _ hp,
        deleteVirtInterfaces_of_plugin_ok env w _ hp]
      exact deleteVirtInterfacesLoop_filter env networkNS.NetNsPath networkNS.Endpoints _
  · intro i kind hi
    obtain ⟨rs, hrs⟩ := addVirtInterfaces_endpoints env w networkNS
    rw [hrs]
    exact fill_getElem?_other _ _ _ _ hi
  · obtain ⟨rs, hrs⟩ := addVirtInterfaces_endpoints env w networkNS
    rw [hrs, fill_length]

/-! ## The order of the calls of `remove` -/

/-- C3: in the calls made by `remove`, the first call is the common teardown
`removeNetworkCommon` on the record; the common teardown comes strictly before
every plugin-client construction and every `RemoveNetwork` call; every
`RemoveNetwork` call comes strictly before the `deleteNetNS` call; the common
teardown is called exactly once and `deleteNetNS` at most once. -/
theorem remove_call_order (env : Env σ) (w : World σ) (pod : Pod)
    (networkNS : NetworkNamespace) :
    (∃ ret, (newCalls w (remove env w pod networkNS).1)[0]? =
        some (.removeNetworkCommon networkNS ret)) ∧
    (∀ (i j : Nat) (ci cj : Call),
      (newCalls w (remove env w pod networkNS).1)[i]? = some ci →
      (newCalls w (remove env w pod networkNS).1)[j]? = some cj →
      ci.isCommonTeardown = true → (cj.isDetach = true ∨ cj.isNewPlugin = true) → i < j) ∧
    (∀ (i j : Nat) (ci cj : Call),
      (newCalls w (remove env w pod networkNS).1)[i]? = some ci →
      (newCalls w (remove env w pod networkNS).1)[j]? = some cj →
      ci.isDetach = true → cj.isDeleteNetNS = true → i < j) ∧
    (newCalls w (remove env w pod networkNS).1).countP Call.isCommonTeardown = 1 ∧
    (newCalls w (remove env w pod networkNS).1).countP Call.isDeleteNetNS ≤ 1 := by
  obtain ⟨mid, tail, htrace, hmid, htail⟩ := remove_calls_shape env w pod networkNS
  rw [newCalls_of_trace_eq _ _ _ htrace]
  have htail1 : ∀ c ∈ tail, c.isDeleteNetNS = true := by
    intro c hc
    rcases htail with h | ⟨x, h⟩
    · rw [h] at hc; simp at hc
    · rw [h] at hc
      simp only [List.mem_singleton] at hc
      rw [hc]; rfl
  have htail2 : tail.length ≤ 1 := by
    rcases htail with h | ⟨x, h⟩ <;> simp [h]
  exact ⟨⟨_, List.getElem?_cons_zero⟩, call_order_of_shape _ mid tail rfl hmid htail1 htail2⟩

/-! ## Failures in `remove` -/

/-- C6: if the common teardown fails with `e`, `remove` returns exactly `e` and
its only call is that teardown (no plugin client, no detach, no `deleteNetNS`);
if the common teardown succeeds and the detach sequence fails with `e`, `remove`
returns `e`, its calls are the teardown followed by those of the detach
sequence, and none of them is a `deleteNetNS` call. -/
theorem remove_stops_at_first_failure (env : Env σ) (w : World σ) (pod : Pod)
    (networkNS : NetworkNamespace) :
    (∀ e : String, (env.removeNetworkCommon w.ext networkNS).1 = some e →
      (remove env w pod networkNS).2 = some e ∧
      newCalls w (remove env w pod networkNS).1 =
        [.removeNetworkCommon networkNS (some e)]) ∧
    (∀ e : String, (env.removeNetworkCommon w.ext networkNS).1 = none →
      (deleteVirtInterfaces env (afterTeardown env w networkNS) networkNS).2 = some e →
      (remove env w pod networkNS).2 = some e ∧
      newCalls w (remove env w pod networkNS).1 =
        .removeNetworkCommon networkNS none ::
          newCalls (afterTeardown env w networkNS)
            (deleteVirtInterfaces env (afterTeardown env w networkNS) networkNS).1 ∧
      ∀ c ∈ newCalls w (remove env w pod networkNS).1, c.isDeleteNetNS = false) := by
  refine ⟨fun e ht => remove_calls_of_teardown_error env w pod networkNS e ht, ?_⟩
  intro e ht hd
  obtain ⟨h1, h2⟩ := remove_calls_of_detach_error env w pod networkNS e ht hd
  refine ⟨h1, h2, ?_⟩
  intro c hc
  rw [h2, List.mem_cons] at hc
  rcases hc with hc | hc
  · rw [hc]; rfl
  · exact no_deleteNetNS_in_detach env _ networkNS c hc

/-! ## The namespace deletion of `remove` -/

/-- C8: when the common teardown and the detach sequence both succeed, the
calls of `remove` are the teardown, the calls of the detach sequence and then
one `deleteNetNS` call with the record's `NetNsPath` and `force = true`, the
only `deleteNetNS` call, and `remove` returns exactly what that call returned;
`NetNsCreated` is read nowhere: if the common teardown answers the same for the
record with any other value of `NetNsCreated`, then `remove` on that record
returns the same result, leaves the same external state, and makes the same
calls after the teardown. -/
theorem remove_forces_namespace_deletion (env : Env σ) (w : World σ) (pod : Pod)
    (networkNS : NetworkNamespace)
    (ht : (env.removeNetworkCommon w.ext networkNS).1 = none)
    (hd : (deleteVirtInterfaces env (afterTeardown env w networkNS) networkNS).2 = none) :
    newCalls w (remove env w pod networkNS).1 =
      .removeNetworkCommon networkNS none ::
        (newCalls (afterTeardown env w networkNS)
            (deleteVirtInterfaces env (afterTeardown env w networkNS) networkNS).1 ++
          [.deleteNetNS networkNS.NetNsPath true
            (env.deleteNetNS
              (deleteVirtInterfaces env (afterTeardown env w networkNS) networkNS).1.ext
              networkNS.NetNsPath true).1]) ∧
    (remove env w pod networkNS).2 =
      (env.deleteNetNS (deleteVirtInterfaces env (afterTeardown env w networkNS) networkNS).1.ext
        networkNS.NetNsPath true).1 ∧
    (newCalls w (remove env w pod networkNS).1).countP Call.isDeleteNetNS = 1 ∧
    (∀ b : Bool,
      env.removeNetworkCommon w.ext { networkNS with NetNsCreated := b } =
        env.removeNetworkCommon w.ext networkNS →
      (remove env w pod { networkNS with NetNsCreated := b }).2 =
        (remove env w pod networkNS).2 ∧
      (remove env w pod { networkNS with NetNsCreated := b }).1.ext =
        (remove env w pod networkNS).1.ext ∧
      (newCalls w (remove env w pod { networkNS with NetNsCreated := b }).1).tail =
        (newCalls w (remove env w pod networkNS).1).tail) := by
  obtain ⟨hres, hext, hcalls⟩ := remove_calls_of_detach_ok env w pod networkNS ht hd
  refine ⟨hcalls, hres, ?_, ?_⟩
  · rw [hcalls, List.countP_cons, List.countP_append]
    have h0 : (newCalls (afterTeardown env w networkNS)
        (deleteVirtInterfaces env (afterTeardown env w networkNS) networkNS).1).countP
        Call.isDeleteNetNS = 0 := by
      rw [List.countP_eq_zero]
      intro c hc
      rw [no_deleteNetNS_in_detach env _ networkNS c hc]
      exact Bool.false_ne_true
    rw [h0]
    rfl
  · intro b hb
    have ht2 : (env.removeNetworkCommon w.ext { networkNS with NetNsCreated := b }).1 = none := by
      rw [hb]; exact ht
    have hw : (afterTeardown env w networkNS).ext =
        (afterTeardown env w { networkNS with NetNsCreated := b }).ext := by
      simp only [afterTeardown, call_ext, hb]
    obtain ⟨h1, h2, calls, h3, h4⟩ := deleteVirtInterfaces_ext_only env
      (afterTeardown env w networkNS) (afterTeardown env w { networkNS with NetNsCreated := b })
      networkNS { networkNS with NetNsCreated := b } hw rfl rfl
    have hd2 : (deleteVirtInterfaces env
        (afterTeardown env w { networkNS with NetNsCreated := b })
        { networkNS with NetNsCreated := b }).2 = none := by
      rw [← h1]; exact hd
    obtain ⟨hres2, hext2, hcalls2⟩ := remove_calls_of_detach_ok env w pod
      { networkNS with NetNsCreated := b } ht2 hd2
    refine ⟨?_, ?_, ?_⟩
    · rw [hres2, hres, ← h2]
    · rw [hext2, hext, ← h2]
    · rw [hcalls2, hcalls, newCalls_of_trace_eq _ _ _ h3, newCalls_of_trace_eq _ _ _ h4, ← h2]
      rfl

/-- C9, as amended: `remove` does not read `NetNsCreated`: for a record with
`NetNsCreated = false`, a `deleteNetNS` call is made exactly when the common
teardown and the detach sequence both succeed, and every `deleteNetNS` call
`remove` makes is on the record's `NetNsPath` with `force = true`. -/
theorem remove_deletes_namespace_not_created (env : Env σ) (w : World σ) (pod : Pod)
    (netNsPath : String) (endpoints : List Endpoint) :
    ((∃ c ∈ newCalls w (remove env w pod
          { NetNsPath := netNsPath, NetNsCreated := false, Endpoints := endpoints }).1,
        c.isDeleteNetNS = true) ↔
      ((env.removeNetworkCommon w.ext
          { NetNsPath := netNsPath, NetNsCreated := false, Endpoints := endpoints }).1 = none ∧
        (deleteVirtInterfaces env
          (afterTeardown env w
            { NetNsPath := netNsPath, NetNsCreated := false, Endpoints := endpoints })
          { NetNsPath := netNsPath, NetNsCreated := false, Endpoints := endpoints }).2 = none)) ∧
    (∀ c ∈ newCalls w (remove env w pod
          { NetNsPath := netNsPath, NetNsCreated := false, Endpoints := endpoints }).1,
      c.isDeleteNetNS = true → ∃ ret, c = .deleteNetNS netNsPath true ret) := by
  generalize hns : ({ NetNsPath := netNsPath, NetNsCreated := false, Endpoints := endpoints } :
    NetworkNamespace) = networkNS
  have hpath : networkNS.NetNsPath = netNsPath := by rw [← hns]
  rw [← hpath]
  cases ht : (env.removeNetworkCommon w.ext networkNS).1 with
  | some e =>
    obtain ⟨-, hcalls⟩ := remove_calls_of_teardown_error env w pod networkNS e ht
    rw [hcalls]
    simp [Call.isDeleteNetNS]
  | none =>
    cases hd : (deleteVirtInterfaces env (afterTeardown env w networkNS) networkNS).2 with
    | some e =>
      obtain ⟨-, hcalls⟩ := remove_calls_of_detach_error env w pod networkNS e ht hd
      have hno : ∀ c ∈ newCalls w (remove env w pod networkNS).1, c.isDeleteNetNS = false := by
        intro c hc
        rw [hcalls, List.mem_cons] at hc
        rcases hc with hc | hc
        · rw [hc]; rfl
        · exact no_deleteNetNS_in_detach env _ networkNS c hc
      refine ⟨⟨?_, ?_⟩, ?_⟩
      · rintro ⟨c, hc, hcd⟩
        rw [hno c hc] at hcd
        exact Bool.noConfusion hcd
      · rintro ⟨-, h⟩
        exact Option.noConfusion h
      · intro c hc hcd
        rw [hno c hc] at hcd
        exact Bool.noConfusion hcd
    | none =>
      obtain ⟨-, -, hcalls⟩ := remove_calls_of_detach_ok env w pod networkNS ht hd
      refine ⟨⟨fun _ => ⟨rfl, rfl⟩, fun _ =>
        ⟨Call.deleteNetNS networkNS.NetNsPath true
          (env.deleteNetNS
            (deleteVirtInterfaces env (afterTeardown env w networkNS) networkNS).1.ext
            networkNS.NetNsPath true).1, ?_, rfl⟩⟩, ?_⟩
      · rw [hcalls]
        simp
      · intro c hc hcd
        rw [hcalls, List.mem_cons, List.mem_append, List.mem_singleton] at hc
        rcases hc with hc | hc | hc
        · rw [hc] at hcd
          exact Bool.noConfusion hcd
        · rw [no_deleteNetNS_in_detach env _ networkNS c hc] at hcd
          exact Bool.noConfusion hcd
        · exact ⟨_, hc⟩

/-! ## Failures in `add` -/

/-- C5: `add` runs endpoint creation, the attach sequence and the common setup
in this order and stops at the first that fails: it then returns the zero-value
`NetworkNamespace` with that step's error, and the later steps make no call
(after a failed creation the only call is `createNetworkEndpoints`; after a
failed attach sequence no `addNetworkCommon` call is made).  When all three
succeed the error is nil and the returned record is the one the common setup
left, whose `NetNsPath` and `NetNsCreated` are the arguments of `add` whenever
the common setup leaves these two fields as it received them. -/
theorem add_stops_at_first_failure (env : Env σ) (w : World σ) (pod : Pod)
    (config : NetworkConfig) (netNsPath : String) (netNsCreated : Bool) :
    (∀ e : String, (env.createNetworkEndpoints w.ext config.NumInterfaces).1 = .error e →
      (add env w pod config netNsPath netNsCreated).2.2 = some e ∧
      (add env w pod config netNsPath netNsCreated).2.1 = NetworkNamespace.zero ∧
      newCalls w (add env w pod config netNsPath netNsCreated).1 =
        [.createNetworkEndpoints config.NumInterfaces (.error e)]) ∧
    (∀ (endpoints : List Endpoint) (e : String),
      (env.createNetworkEndpoints w.ext config.NumInterfaces).1 = .ok endpoints →
      (attachOf env w config netNsPath netNsCreated endpoints).2.2 = some e →
      (add env w pod config netNsPath netNsCreated).2.2 = some e ∧
      (add env w pod config netNsPath netNsCreated).2.1 = NetworkNamespace.zero ∧
      newCalls w (add env w pod config netNsPath netNsCreated).1 =
        .createNetworkEndpoints config.NumInterfaces (.ok endpoints) ::
          newCalls (afterCreate env w config endpoints)
            (attachOf env w config netNsPath netNsCreated endpoints).1 ∧
      ∀ c ∈ newCalls w (add env w pod config netNsPath netNsCreated).1,
        c.isCommonSetup = false) ∧
    (∀ (endpoints : List Endpoint) (e : String),
      (env.createNetworkEndpoints w.ext config.NumInterfaces).1 = .ok endpoints →
      (attachOf env w config netNsPath netNsCreated endpoints).2.2 = none →
      (setupOf env w pod config netNsPath netNsCreated endpoints).1.2 = some e →
      (add env w pod config netNsPath netNsCreated).2.2 = some e ∧
      (add env w pod config netNsPath netNsCreated).2.1 = NetworkNamespace.zero ∧
      newCalls w (add env w pod config netNsPath netNsCreated).1 =
        .createNetworkEndpoints config.NumInterfaces (.ok endpoints) ::
          (newCalls (afterCreate env w config endpoints)
            (attachOf env w config netNsPath netNsCreated endpoints).1 ++
            [.addNetworkCommon pod (attachOf env w config netNsPath netNsCreated endpoints).2.1
              (setupOf env w pod config netNsPath netNsCreated endpoints).1.1 (some e)])) ∧
    (∀ (endpoints : List Endpoint),
      (env.createNetworkEndpoints w.ext config.NumInterfaces).1 = .ok endpoints →
      (attachOf env w config netNsPath netNsCreated endpoints).2.2 = none →
      (setupOf env w pod config netNsPath netNsCreated endpoints).1.2 = none →
      (add env w pod config netNsPath netNsCreated).2.2 = none ∧
      (add env w pod config netNsPath netNsCreated).2.1 =
        (setupOf env w pod config netNsPath netNsCreated endpoints).1.1 ∧
      newCalls w (add env w pod config netNsPath netNsCreated).1 =
        .createNetworkEndpoints config.NumInterfaces (.ok endpoints) ::
          (newCalls (afterCreate env w config endpoints)
            (attachOf env w config netNsPath netNsCreated endpoints).1 ++
            [.addNetworkCommon pod (attachOf env w config netNsPath netNsCreated endpoints).2.1
              (setupOf env w pod config netNsPath netNsCreated endpoints).1.1 none]) ∧
      ((setupOf env w pod config netNsPath netNsCreated endpoints).1.1.NetNsPath =
          (attachOf env w config netNsPath netNsCreated endpoints).2.1.NetNsPath →
        (add env w pod config netNsPath netNsCreated).2.1.NetNsPath = netNsPath) ∧
      ((setupOf env w pod config netNsPath netNsCreated endpoints).1.1.NetNsCreated =
          (attachOf env w config netNsPath netNsCreated endpoints).2.1.NetNsCreated →
        (add env w pod config netNsPath netNsCreated).2.1.NetNsCreated = netNsCreated)) ∧
    ((add env w pod config netNsPath netNsCreated).2.2 ≠ none →
      (add env w pod config netNsPath netNsCreated).2.1 = NetworkNamespace.zero) := by
  simp only [attachOf, setupOf]
  refine ⟨?_, ?_, ?_, ?_, ?_⟩
  · intro e hc
    rw [add_of_create_error env w pod config netNsPath netNsCreated e hc]
    exact ⟨rfl, rfl, newCalls_of_trace_eq _ _ _ (call_trace _ _ _)⟩
  · intro endpoints e hc ha
    rw [add_of_attach_error env w pod config netNsPath netNsCreated endpoints e hc ha]
    have hcalls : newCalls w (addVirtInterfaces env (afterCreate env w config endpoints)
        (assembled netNsPath netNsCreated endpoints)).1 =
        .createNetworkEndpoints config.NumInterfaces (.ok endpoints) ::
          newCalls (afterCreate env w config endpoints) (addVirtInterfaces env (afterCreate env w config endpoints)
        (assembled netNsPath netNsCreated endpoints)).1 := by
      apply newCalls_of_trace_eq
      rw [attach_trace]
      simp [afterCreate, call_trace]
    refine ⟨rfl, rfl, hcalls, ?_⟩
    intro c hc2
    simp only at hc2
    rw [hcalls, List.mem_cons] at hc2
    rcases hc2 with hc2 | hc2
    · rw [hc2]; rfl
    · exact no_setup_in_attach env _ _ c hc2
  · intro endpoints e hc ha hs
    rw [add_of_setup_error env w pod config netNsPath netNsCreated endpoints e hc ha hs]
    refine ⟨rfl, rfl, newCalls_of_trace_eq _ _ _ ?_⟩
    simp only
    rw [call_trace, attach_trace]
    simp [afterCreate, call_trace]
  · intro endpoints hc ha hs
    rw [add_of_setup_ok env w pod config netNsPath netNsCreated endpoints hc ha hs]
    refine ⟨rfl, rfl, newCalls_of_trace_eq _ _ _ ?_, ?_, ?_⟩
    · simp only
      rw [call_trace, attach_trace]
      simp [afterCreate, call_trace]
    · intro h
      simp only
      rw [h, (addVirtInterfaces_fields env _ _).1]
      rfl
    · intro h
      simp only
      rw [h, (addVirtInterfaces_fields env _ _).2]
      rfl
  · intro hne
    cases hc : (env.createNetworkEndpoints w.ext config.NumInterfaces).1 with
    | error e =>
      rw [add_of_create_error env w pod config netNsPath netNsCreated e hc]
    | ok endpoints =>
      cases ha : (addVirtInterfaces env (afterCreate env w config endpoints)
        (assembled netNsPath netNsCreated endpoints)).2.2 with
      | some e =>
        rw [add_of_attach_error env w pod config netNsPath netNsCreated endpoints e hc ha]
      | none =>
        cases hs : (env.addNetworkCommon (addVirtInterfaces env (afterCreate env w config endpoints)
        (assembled netNsPath netNsCreated endpoints)).1.ext pod
        (addVirtInterfaces env (afterCreate env w config endpoints)
        (assembled netNsPath netNsCreated endpoints)).2.1).1.2 with
        | some e =>
          rw [add_of_setup_error env w pod config netNsPath netNsCreated endpoints e hc ha hs]
        | none =>
          rw [add_of_setup_ok env w pod config netNsPath netNsCreated endpoints hc ha hs] at hne
          exact absurd rfl hne

/-! ## Failure to construct the plugin client -/

/-- C10: if `NewNetworkPlugin` fails with `e`, `addVirtInterfaces` returns
exactly `e`, its only call is the client construction (no attach call) and the
record is unchanged, and `deleteVirtInterfaces` returns exactly `e` with the
client construction as its only call (no detach call); so `add` returns `e`
with the zero-value record after only `createNetworkEndpoints` and the client
construction (no `addNetworkCommon`), and `remove` returns `e` after only the
common teardown and the client construction (no `deleteNetNS`).  In every run
the attach sequence and the detach sequence construct the client exactly once,
as their first call, and every later call is a plugin call. -/
theorem plugin_client_failure_aborts (env : Env σ) (w : World σ)
    (networkNS : NetworkNamespace) :
    (∀ e : String, (env.NewNetworkPlugin w.ext).1 = some e →
      addVirtInterfaces env w networkNS =
        (w.call (env.NewNetworkPlugin w.ext).2 (.NewNetworkPlugin (some e)),
          networkNS, some e) ∧
      newCalls w (addVirtInterfaces env w networkNS).1 = [.NewNetworkPlugin (some e)] ∧
      deleteVirtInterfaces env w networkNS =
        (w.call (env.NewNetworkPlugin w.ext).2 (.NewNetworkPlugin (some e)), some e) ∧
      newCalls w (deleteVirtInterfaces env w networkNS).1 = [.NewNetworkPlugin (some e)]) ∧
    (∀ (pod : Pod) (config : NetworkConfig) (netNsPath : String) (netNsCreated : Bool)
        (endpoints : List Endpoint) (e : String),
      (env.createNetworkEndpoints w.ext config.NumInterfaces).1 = .ok endpoints →
      (env.NewNetworkPlugin (afterCreate env w config endpoints).ext).1 = some e →
      (add env w pod config netNsPath netNsCreated).2.2 = some e ∧
      (add env w pod config netNsPath netNsCreated).2.1 = NetworkNamespace.zero ∧
      newCalls w (add env w pod config netNsPath netNsCreated).1 =
        [.createNetworkEndpoints config.NumInterfaces (.ok endpoints),
          .NewNetworkPlugin (some e)]) ∧
    (∀ (pod : Pod) (e : String),
      (env.removeNetworkCommon w.ext networkNS).1 = none →
      (env.NewNetworkPlugin (afterTeardown env w networkNS).ext).1 = some e →
      (remove env w pod networkNS).2 = some e ∧
      newCalls w (remove env w pod networkNS).1 =
        [.removeNetworkCommon networkNS none, .NewNetworkPlugin (some e)]) ∧
    (∃ rest : List Call,
      newCalls w (addVirtInterfaces env w networkNS).1 =
        .NewNetworkPlugin (env.NewNetworkPlugin w.ext).1 :: rest ∧
      ∀ c ∈ rest, c.isAttach = true ∧ c.isNewPlugin = false) ∧
    (∃ rest : List Call,
      newCalls w (deleteVirtInterfaces env w networkNS).1 =
        .NewNetworkPlugin (env.NewNetworkPlugin w.ext).1 :: rest ∧
      ∀ c ∈ rest, c.isDetach = true ∧ c.isNewPlugin = false) := by
  refine ⟨?_, ?_, ?_, ?_, ?_⟩
  · intro e hp
    rw [addVirtInterfaces_of_plugin_error env w networkNS e hp,
      deleteVirtInterfaces_of_plugin_error env w networkNS e hp]
    exact ⟨rfl, newCalls_of_trace_eq _ _ _ (call_trace _ _ _), rfl,
      newCalls_of_trace_eq _ _ _ (call_trace _ _ _)⟩
  · intro pod config netNsPath netNsCreated endpoints e hc hp
    have ha : (addVirtInterfaces env (afterCreate env w config endpoints)
        (assembled netNsPath netNsCreated endpoints)).2.2 = some e := by
      rw [addVirtInterfaces_of_plugin_error env _ _ e hp]
    rw [add_of_attach_error env w pod config netNsPath netNsCreated endpoints e hc ha,
      addVirtInterfaces_of_plugin_error env _ _ e hp]
    refine ⟨rfl, rfl, newCalls_of_trace_eq _ _ _ ?_⟩
    simp [afterCreate, call_trace]
  · intro pod e ht hp
    have hd : (deleteVirtInterfaces env (afterTeardown env w networkNS) networkNS).2 =
        some e := by
      rw [deleteVirtInterfaces_of_plugin_error env _ _ e hp]
    obtain ⟨h1, h2⟩ := remove_calls_of_detach_error env w pod networkNS e ht hd
    refine ⟨h1, ?_⟩
    rw [h2, deleteVirtInterfaces_of_plugin_error env _ _ e hp,
      newCalls_of_trace_eq _ _ _ (call_trace _ _ _)]
  · obtain ⟨rest, htrace, -, hrest⟩ := addVirtInterfaces_calls_shape env w networkNS
    refine ⟨rest, newCalls_of_trace_eq _ _ _ htrace, ?_⟩
    intro c hc
    obtain ⟨ve, ret, -, hcv⟩ := hrest c hc
    rw [hcv]
    exact ⟨rfl, rfl⟩
  · obtain ⟨rest, htrace, -, hrest⟩ := deleteVirtInterfaces_calls_shape env w networkNS
    refine ⟨rest, newCalls_of_trace_eq _ _ _ htrace, ?_⟩
    intro c hc
    obtain ⟨ve, ret, -, hcv⟩ := hrest c hc
    rw [hcv]
    exact ⟨rfl, rfl⟩

/-! ## Concrete runs -/

/-- Witness for C1: with no failing call, the attach sequence over `demoNS`
returns nil and stores on each of the three eligible endpoints the result of
its own call, leaving the non-eligible endpoint at index 1 as it was. -/
theorem addVirtInterfaces_attaches_each_eligible_endpoint_witness :
    (addVirtInterfaces (demoEnv 99) demoWorld demoNS).2.2 = none ∧
    (addVirtInterfaces (demoEnv 99) demoWorld demoNS).2.1.Endpoints =
      [.virt { demoEndpoint "a" "eth0" with Properties := { payload := "a" } },
        .other "physical",
        .virt { demoEndpoint "b" "eth1" with Properties := { payload := "b" } },
        .virt { demoEndpoint "c" "eth2" with Properties := { payload := "c" } }] ∧
    newCalls demoWorld (addVirtInterfaces (demoEnv 99) demoWorld demoNS).1 =
      [.NewNetworkPlugin none,
        .AddNetwork "a" "/var/run/netns/pod" "eth0" (.ok { payload := "a" }),
        .AddNetwork "b" "/var/run/netns/pod" "eth1" (.ok { payload := "b" }),
        .AddNetwork "c" "/var/run/netns/pod" "eth2" (.ok { payload := "c" })] :=
  ⟨(addVirtInterfaces_attaches_each_eligible_endpoint (demoEnv 99) demoWorld demoNS rfl
      (by decide)).1, by decide, by decide⟩

/-- Witness for C2: the attach call of the endpoint at index 2 of `demoNS` (the
second eligible one) fails; the error is returned, the endpoint at index 0
carries its result and the endpoints at indices 2 and 3 are untouched. -/
theorem addVirtInterfaces_first_failed_attach_witness :
    (addVirtInterfaces (demoEnv 2) demoWorld demoNS).2.2 = some "AttachFailed" ∧
    (addVirtInterfaces (demoEnv 2) demoWorld demoNS).2.1.Endpoints =
      [.virt { demoEndpoint "a" "eth0" with Properties := { payload := "a" } },
        .other "physical", .virt (demoEndpoint "b" "eth1"),
        .virt (demoEndpoint "c" "eth2")] ∧
    newCalls demoWorld (addVirtInterfaces (demoEnv 2) demoWorld demoNS).1 =
      [.NewNetworkPlugin none,
        .AddNetwork "a" "/var/run/netns/pod" "eth0" (.ok { payload := "a" }),
        .AddNetwork "b" "/var/run/netns/pod" "eth1" (.error "AttachFailed")] :=
  ⟨(addVirtInterfaces_first_failed_attach (demoEnv 2) demoWorld demoNS 2
      (demoEndpoint "b" "eth1") "AttachFailed" rfl rfl rfl rfl).1, by decide, by decide⟩

/-- Witness for C4: the calls made for `demoNS`, whose endpoint at index 1 is
not eligible, are those made for its three eligible endpoints alone. -/
theorem non_eligible_endpoints_are_skipped_witness :
    (addVirtInterfaces (demoEnv 99) demoWorld
        { demoNS with Endpoints := [.virt (demoEndpoint "a" "eth0"),
          .virt (demoEndpoint "b" "eth1"), .virt (demoEndpoint "c" "eth2")] }).1 =
      (addVirtInterfaces (demoEnv 99) demoWorld demoNS).1 :=
  (non_eligible_endpoints_are_skipped (demoEnv 99) demoWorld demoNS).2.2.1

/-- Witness for C5 (scenario C): with three endpoints created and the attach
call of the second failing, `add` returns the zero-value record and the attach
error, and makes no `addNetworkCommon` call; and with no failing call `add`
returns nil and a record with the `NetNsPath` and `NetNsCreated` it was given. -/
theorem add_stops_at_first_failure_witness :
    ((add (demoEnv 3) demoWorld demoPod { NumInterfaces := 3 } "/var/run/netns/pod" true).2 =
        (NetworkNamespace.zero, some "AttachFailed") ∧
      ∀ c ∈ newCalls demoWorld
          (add (demoEnv 3) demoWorld demoPod { NumInterfaces := 3 } "/var/run/netns/pod" true).1,
        c.isCommonSetup = false) ∧
    ((add (demoEnv 99) demoWorld demoPod { NumInterfaces := 3 } "/var/run/netns/pod" true).2.2 =
        none ∧
      (add (demoEnv 99) demoWorld demoPod { NumInterfaces := 3 }
        "/var/run/netns/pod" true).2.1.NetNsPath = "/var/run/netns/pod" ∧
      (add (demoEnv 99) demoWorld demoPod { NumInterfaces := 3 }
        "/var/run/netns/pod" true).2.1.NetNsCreated = true) :=
  have h := (add_stops_at_first_failure (demoEnv 3) demoWorld demoPod { NumInterfaces := 3 }
    "/var/run/netns/pod" true).2.1
    [.virt (demoEndpoint "a" "eth0"), .virt (demoEndpoint "b" "eth1"),
      .virt (demoEndpoint "c" "eth2")] "AttachFailed" rfl rfl
  have g := (add_stops_at_first_failure (demoEnv 99) demoWorld demoPod { NumInterfaces := 3 }
    "/var/run/netns/pod" true).2.2.2.1
    [.virt (demoEndpoint "a" "eth0"), .virt (demoEndpoint "b" "eth1"),
      .virt (demoEndpoint "c" "eth2")] rfl rfl rfl
  ⟨⟨Prod.ext h.2.1 h.1, h.2.2.2⟩, g.1, g.2.2.2.1 rfl, g.2.2.2.2 rfl⟩

/-- Witness for C6 (scenario D): the common teardown fails; `remove` returns
its error and makes no other call. -/
theorem remove_stops_at_first_failure_witness :
    (remove (demoEnv 0) demoWorld demoPod demoNS).2 = some "CommonTeardownFailed" ∧
    newCalls demoWorld (remove (demoEnv 0) demoWorld demoPod demoNS).1 =
      [.removeNetworkCommon demoNS (some "CommonTeardownFailed")] :=
  (remove_stops_at_first_failure (demoEnv 0) demoWorld demoPod demoNS).1
    "CommonTeardownFailed" rfl

/-- Witness for C7: with no failing call, the detach calls for `demoNS` carry
the tuples of its three eligible endpoints, in the namespace's order. -/
theorem deleteVirtInterfaces_detaches_in_endpoint_order_witness :
    (newCalls demoWorld (deleteVirtInterfaces (demoEnv 99) demoWorld demoNS).1).filterMap
        Call.pluginArgs =
      [("a", "/var/run/netns/pod", "eth0"), ("b", "/var/run/netns/pod", "eth1"),
        ("c", "/var/run/netns/pod", "eth2")] :=
  (deleteVirtInterfaces_detaches_in_endpoint_order (demoEnv 99) demoWorld demoNS rfl).2.1.2 rfl

/-- Witness for C8: teardown and detach succeed on `demoNS`; `remove` ends with
one forced `deleteNetNS` on the record's path and returns its nil result. -/
theorem remove_forces_namespace_deletion_witness :
    newCalls demoWorld (remove (demoEnv 99) demoWorld demoPod demoNS).1 =
      [.removeNetworkCommon demoNS none, .NewNetworkPlugin none,
        .RemoveNetwork "a" "/var/run/netns/pod" "eth0" none,
        .RemoveNetwork "b" "/var/run/netns/pod" "eth1" none,
        .RemoveNetwork "c" "/var/run/netns/pod" "eth2" none,
        .deleteNetNS "/var/run/netns/pod" true none] ∧
    (remove (demoEnv 99) demoWorld demoPod demoNS).2 = none :=
  have h := remove_forces_namespace_deletion (demoEnv 99) demoWorld demoPod demoNS rfl rfl
  ⟨h.1, h.2.1⟩

/-- Counterexample to C9: `demoNS` has `NetNsCreated = false`, and `remove`
calls `deleteNetNS` on its `NetNsPath`, with `force = true`. -/
theorem remove_deletes_namespace_it_did_not_create :
    demoNS.NetNsCreated = false ∧
    Call.deleteNetNS demoNS.NetNsPath true none ∈
      newCalls demoWorld (remove (demoEnv 99) demoWorld demoPod demoNS).1 := by
  decide

/-- Witness for C10: the client construction fails; the attach sequence
returns that error after the construction alone and leaves `demoNS` as it was. -/
theorem plugin_client_failure_aborts_witness :
    addVirtInterfaces (demoEnv 0) demoWorld demoNS =
      (demoWorld.call 1 (.NewNetworkPlugin (some "ProviderUnavailable")), demoNS,
        some "ProviderUnavailable") ∧
    newCalls demoWorld (addVirtInterfaces (demoEnv 0) demoWorld demoNS).1 =
      [.NewNetworkPlugin (some "ProviderUnavailable")] :=
  have h := (plugin_client_failure_aborts (demoEnv 0) demoWorld demoNS).1
    "ProviderUnavailable" rfl
  ⟨h.1, h.2.1⟩

end virtcontainers
